import Mathlib

/-!
Verification of the telepresence proxy-setup core (`telepresence/proxy/proxy.py`,
`telepresence/proxy/__init__.py`) and the span tracer (`telepresence/runner/span.py`)
against its natural-language specification.

The Python code is shallowly embedded: stateful runner interactions become
explicit state passing over a `RunState`, the fallible cluster control plane
becomes a `ClusterEnv` oracle fixing the outcome of each external call, and
exceptions become an `Except`-style result threaded next to the state.
-/

namespace Telepresence

/-! ## JSON documents

Manifests are structured documents serialized with `json.dumps`.  `Doc` is the
document model; `renderDoc` mirrors `json.dumps` with its default separators
(comma-space and colon-space); `parseVal` is the matching deserializer. -/

mutual

inductive Doc where
  | str : String → Doc
  | nat : Nat → Doc
  | arr : DocList → Doc
  | obj : DocFields → Doc
deriving Repr

inductive DocList where
  | nil : DocList
  | cons : Doc → DocList → DocList
deriving Repr

inductive DocFields where
  | nil : DocFields
  | cons : String → Doc → DocFields → DocFields
deriving Repr

end

/-- Build a `DocList` from a Lean list of documents. -/
def DocList.ofList : List Doc → DocList
  | [] => .nil
  | x :: xs => .cons x (DocList.ofList xs)

/-- Flatten a `DocList` back into a Lean list of documents. -/
def DocList.toList : DocList → List Doc
  | .nil => []
  | .cons x xs => x :: DocList.toList xs

theorem DocList.toList_ofList (xs : List Doc) : (DocList.ofList xs).toList = xs := by
  induction xs with
  | nil => rfl
  | cons x xs ih => simp [DocList.ofList, DocList.toList, ih]

/-- The double-quote character. -/
def quoteChar : Char := Char.ofNat 34

/-- The opening-brace character. -/
def lbraceChar : Char := Char.ofNat 123

/-- The closing-brace character. -/
def rbraceChar : Char := Char.ofNat 125

/-- The backslash character. -/
def backslashChar : Char := Char.ofNat 92

/-- Decimal digit to character. -/
def digitChar (d : Nat) : Char := Char.ofNat (48 + d)

/-- Decimal digits of `n`, least significant first, with explicit fuel. -/
def natDigitsAux : Nat → Nat → List Nat
  | 0, _ => []
  | _ + 1, 0 => []
  | fuel + 1, n + 1 => ((n + 1) % 10) :: natDigitsAux fuel ((n + 1) / 10)

/-- Decimal rendering of a natural number, most significant digit first. -/
def natChars (n : Nat) : List Char :=
  if n = 0 then [digitChar 0] else (natDigitsAux n n).reverse.map digitChar

mutual

def renderDoc : Doc → List Char
  | .str s => quoteChar :: s.data ++ [quoteChar]
  | .nat n => natChars n
  | .arr .nil => ['[', ']']
  | .arr (.cons x xs) => '[' :: (renderDoc x ++ renderSep xs ++ [']'])
  | .obj .nil => [lbraceChar, rbraceChar]
  | .obj (.cons k v fs) =>
    lbraceChar ::
      ((quoteChar :: k.data ++ quoteChar :: ':' :: ' ' :: renderDoc v) ++
        renderFieldsSep fs ++ [rbraceChar])
termination_by structural d => d

def renderSep : DocList → List Char
  | .nil => []
  | .cons x xs => ',' :: ' ' :: (renderDoc x ++ renderSep xs)
termination_by structural xs => xs

def renderFieldsSep : DocFields → List Char
  | .nil => []
  | .cons k v fs =>
    ',' :: ' ' :: ((quoteChar :: k.data ++ quoteChar :: ':' :: ' ' :: renderDoc v) ++
      renderFieldsSep fs)
termination_by structural fs => fs

end

/-- Rendering of a single object field, `"k": v`. -/
def renderField (k : String) (v : Doc) : List Char :=
  quoteChar :: k.data ++ quoteChar :: ':' :: ' ' :: renderDoc v

theorem renderDoc_obj_cons (k : String) (v : Doc) (fs : DocFields) :
    renderDoc (.obj (.cons k v fs)) =
      lbraceChar :: (renderField k v ++ renderFieldsSep fs ++ [rbraceChar]) := rfl

theorem renderFieldsSep_cons (k : String) (v : Doc) (fs : DocFields) :
    renderFieldsSep (.cons k v fs) =
      ',' :: ' ' :: (renderField k v ++ renderFieldsSep fs) := rfl

/-- Serialize a document to a string, as `json.dumps` does. -/
def Doc.render (d : Doc) : String := String.mk (renderDoc d)

/-- A character is clean when it needs no JSON escaping and is not a quote. -/
def cleanChar (c : Char) : Bool := c ≠ quoteChar && c ≠ backslashChar

/-- A string is clean when every character is clean. -/
def strClean (s : String) : Bool := s.data.all cleanChar

mutual

def Doc.clean : Doc → Bool
  | .str s => strClean s
  | .nat _ => true
  | .arr xs => DocList.clean xs
  | .obj fs => DocFields.clean fs
termination_by structural d => d

def DocList.clean : DocList → Bool
  | .nil => true
  | .cons x xs => Doc.clean x && DocList.clean xs
termination_by structural xs => xs

def DocFields.clean : DocFields → Bool
  | .nil => true
  | .cons k v fs => strClean k && Doc.clean v && DocFields.clean fs
termination_by structural fs => fs

end

/-- Is this character a decimal digit? -/
def isDigitChar (c : Char) : Bool := 48 ≤ c.toNat && c.toNat ≤ 57

/-- Read the body of a JSON string up to the closing quote. -/
def parseStringBody : List Char → Option (List Char × List Char)
  | [] => none
  | c :: cs =>
    if c = quoteChar then some ([], cs)
    else
      match parseStringBody cs with
      | some (content, rest) => some (c :: content, rest)
      | none => none

/-- Split off the leading run of digits. -/
def spanDigits : List Char → List Char × List Char
  | [] => ([], [])
  | c :: cs =>
    if isDigitChar c then
      let p := spanDigits cs
      (c :: p.1, p.2)
    else ([], c :: cs)

/-- Fold digit characters, most significant first, into a natural number. -/
def digitsToNat (ds : List Char) : Nat := ds.foldl (fun a c => a * 10 + (c.toNat - 48)) 0

mutual

def parseVal : Nat → List Char → Option (Doc × List Char)
  | 0, _ => none
  | fuel + 1, cs =>
    match cs with
    | [] => none
    | c :: rest =>
      if c = quoteChar then
        match parseStringBody rest with
        | some (content, r) => some (.str (String.mk content), r)
        | none => none
      else if c = '[' then
        match rest with
        | [] => none
        | c2 :: r =>
          if c2 = ']' then some (.arr .nil, r)
          else
            match parseVal fuel (c2 :: r) with
            | some (x, r2) =>
              match parseArrTail fuel r2 with
              | some (xs, r3) => some (.arr (.cons x xs), r3)
              | none => none
            | none => none
      else if c = lbraceChar then
        match rest with
        | [] => none
        | c2 :: r =>
          if c2 = rbraceChar then some (.obj .nil, r)
          else
            match parseField fuel (c2 :: r) with
            | some (f, r2) =>
              match parseObjTail fuel r2 with
              | some (fs, r3) => some (.obj (.cons f.1 f.2 fs), r3)
              | none => none
            | none => none
      else if isDigitChar c then
        let p := spanDigits (c :: rest)
        some (.nat (digitsToNat p.1), p.2)
      else none

def parseArrTail : Nat → List Char → Option (DocList × List Char)
  | 0, _ => none
  | fuel + 1, cs =>
    match cs with
    | [] => none
    | c :: rest =>
      if c = ']' then some (.nil, rest)
      else if c = ',' then
        match rest with
        | ' ' :: r =>
          match parseVal fuel r with
          | some (x, r2) =>
            match parseArrTail fuel r2 with
            | some (xs, r3) => some (.cons x xs, r3)
            | none => none
          | none => none
        | _ => none
      else none

def parseField : Nat → List Char → Option ((String × Doc) × List Char)
  | 0, _ => none
  | fuel + 1, cs =>
    match cs with
    | [] => none
    | c :: rest =>
      if c = quoteChar then
        match parseStringBody rest with
        | some (k, r) =>
          match r with
          | ':' :: ' ' :: r2 =>
            match parseVal fuel r2 with
            | some (v, r3) => some ((String.mk k, v), r3)
            | none => none
          | _ => none
        | none => none
      else none

def parseObjTail : Nat → List Char → Option (DocFields × List Char)
  | 0, _ => none
  | fuel + 1, cs =>
    match cs with
    | [] => none
    | c :: rest =>
      if c = rbraceChar then some (.nil, rest)
      else if c = ',' then
        match rest with
        | ' ' :: r =>
          match parseField fuel r with
          | some (f, r2) =>
            match parseObjTail fuel r2 with
            | some (fs, r3) => some (.cons f.1 f.2 fs, r3)
            | none => none
          | none => none
        | _ => none
      else none

end

mutual

def docFuel : Doc → Nat
  | .str _ => 1
  | .nat _ => 1
  | .arr .nil => 1
  | .arr (.cons x xs) => 1 + max (docFuel x) (tailFuel xs)
  | .obj .nil => 1
  | .obj (.cons _ v fs) => 1 + max (1 + docFuel v) (objTailFuel fs)
termination_by structural d => d

def tailFuel : DocList → Nat
  | .nil => 1
  | .cons x xs => 1 + max (docFuel x) (tailFuel xs)
termination_by structural xs => xs

def objTailFuel : DocFields → Nat
  | .nil => 1
  | .cons _ v fs => 1 + max (1 + docFuel v) (objTailFuel fs)
termination_by structural fs => fs

end

/-- Fuel budget used by `Doc.parse`: one unit per input character plus one. -/
def docParseFuel (s : String) : Nat := s.data.length + 1

/-- Deserialize a JSON string produced by `Doc.render`. -/
def Doc.parse (s : String) : Option Doc :=
  match parseVal (docParseFuel s) s.data with
  | some (d, []) => some d
  | _ => none

/-- Does the character list avoid starting with a digit? -/
def noDigitLead : List Char → Bool
  | [] => true
  | c :: _ => !isDigitChar c

theorem digitChar_isDigit {d : Nat} (h : d < 10) : isDigitChar (digitChar d) = true := by
  interval_cases d <;> decide

theorem digitChar_toNat {d : Nat} (h : d < 10) : (digitChar d).toNat = 48 + d := by
  interval_cases d <;> decide

theorem natDigitsAux_eq_digits (fuel n : Nat) (h : n ≤ fuel) :
    natDigitsAux fuel n = Nat.digits 10 n := by
  induction fuel generalizing n with
  | zero =>
    interval_cases n
    simp [natDigitsAux, Nat.digits_zero]
  | succ fuel ih =>
    cases n with
    | zero => simp [natDigitsAux, Nat.digits_zero]
    | succ m =>
      rw [natDigitsAux, Nat.digits_def' (by norm_num : (1:Nat) < 10) (Nat.succ_pos m)]
      rw [ih ((m + 1) / 10) (by omega)]

theorem natChars_digits (n : Nat) : ∀ c ∈ natChars n, isDigitChar c = true := by
  intro c hc
  unfold natChars at hc
  split at hc
  · simp at hc
    subst hc
    decide
  · simp only [List.mem_map, List.mem_reverse] at hc
    obtain ⟨d, hdm, hcd⟩ := hc
    subst hcd
    rw [natDigitsAux_eq_digits n n (le_refl n)] at hdm
    exact digitChar_isDigit (Nat.digits_lt_base (by norm_num) hdm)

theorem natChars_cons (n : Nat) :
    ∃ c t, natChars n = c :: t ∧ isDigitChar c = true := by
  rcases h : natChars n with _ | ⟨c, t⟩
  · exfalso
    unfold natChars at h
    split at h
    · simp at h
    · next hn =>
      rw [natDigitsAux_eq_digits n n (le_refl n)] at h
      have : Nat.digits 10 n ≠ [] := Nat.digits_ne_nil_iff_ne_zero.mpr hn
      simp only [List.map_eq_nil_iff, List.reverse_eq_nil_iff] at h
      exact this h
  · exact ⟨c, t, rfl, natChars_digits n c (by rw [h]; exact List.mem_cons_self _ _)⟩

theorem foldr_eq_ofDigits (ds : List Nat) :
    ds.foldr (fun d a => a * 10 + d) 0 = Nat.ofDigits 10 ds := by
  induction ds with
  | nil => simp [Nat.ofDigits]
  | cons d ds ih => simp [Nat.ofDigits, ih]; ring

theorem digitsToNat_natChars (n : Nat) : digitsToNat (natChars n) = n := by
  unfold natChars
  split
  · next h => subst h; decide
  · rw [natDigitsAux_eq_digits n n (le_refl n)]
    unfold digitsToNat
    rw [List.foldl_map, List.foldl_reverse]
    have hcong :
        (Nat.digits 10 n).foldr (fun d a => a * 10 + ((digitChar d).toNat - 48)) 0 =
        (Nat.digits 10 n).foldr (fun d a => a * 10 + d) 0 := by
      apply List.foldr_ext _ _ 0
      intro d hdm b
      rw [digitChar_toNat (Nat.digits_lt_base (by norm_num) hdm)]
      omega
    rw [hcong, foldr_eq_ofDigits, Nat.ofDigits_digits]

theorem spanDigits_append (ds rest : List Char)
    (hd : ∀ c ∈ ds, isDigitChar c = true) (hr : noDigitLead rest = true) :
    spanDigits (ds ++ rest) = (ds, rest) := by
  induction ds with
  | nil =>
    cases rest with
    | nil => rfl
    | cons c cs =>
      simp only [noDigitLead, Bool.not_eq_true'] at hr
      simp [spanDigits, hr]
  | cons c cs ih =>
    simp only [List.cons_append, spanDigits, hd c (List.mem_cons_self _ _), if_pos]
    rw [List.append_eq, ih (fun x hx => hd x (List.mem_cons_of_mem _ hx))]

theorem parseStringBody_append (content rest : List Char)
    (h : ∀ c ∈ content, c ≠ quoteChar) :
    parseStringBody (content ++ quoteChar :: rest) = some (content, rest) := by
  induction content with
  | nil => simp [parseStringBody]
  | cons c cs ih =>
    simp only [List.cons_append, parseStringBody]
    rw [if_neg (h c (List.mem_cons_self _ _))]
    rw [List.append_eq, ih (fun x hx => h x (List.mem_cons_of_mem _ hx))]

theorem docFuel_pos (d : Doc) : 1 ≤ docFuel d := by
  cases d with
  | str s => exact le_refl 1
  | nat n => exact le_refl 1
  | arr xs => cases xs <;> simp [docFuel]
  | obj fs => cases fs <;> simp [docFuel]

theorem tailFuel_pos (xs : DocList) : 1 ≤ tailFuel xs := by
  cases xs <;> simp [tailFuel]

theorem objTailFuel_pos (fs : DocFields) : 1 ≤ objTailFuel fs := by
  cases fs <;> simp [objTailFuel]

theorem renderDoc_cons (d : Doc) :
    ∃ c t, renderDoc d = c :: t ∧ c ≠ ']' ∧ c ≠ rbraceChar := by
  cases d with
  | str s => exact ⟨quoteChar, _, rfl, by decide, by decide⟩
  | nat n =>
    obtain ⟨c, t, h, hd⟩ := natChars_cons n
    refine ⟨c, t, h, ?_, ?_⟩
    · intro e; subst e; exact absurd hd (by decide)
    · intro e; subst e; exact absurd hd (by decide)
  | arr xs =>
    cases xs with
    | nil => exact ⟨'[', _, rfl, by decide, by decide⟩
    | cons x tl => exact ⟨'[', _, rfl, by decide, by decide⟩
  | obj fs =>
    cases fs with
    | nil => exact ⟨lbraceChar, _, rfl, by decide, by decide⟩
    | cons k v tl => exact ⟨lbraceChar, _, rfl, by decide, by decide⟩

theorem strClean_chars {s : String} (h : strClean s = true) :
    ∀ c ∈ s.data, c ≠ quoteChar := by
  intro c hc
  have hcl := List.all_eq_true.mp h c hc
  simp only [cleanChar, Bool.and_eq_true, decide_eq_true_eq] at hcl
  exact hcl.1

theorem noDigitLead_sep (xs : DocList) (rest : List Char) :
    noDigitLead (renderSep xs ++ ']' :: rest) = true := by
  cases xs <;> rfl

theorem noDigitLead_fieldsSep (fs : DocFields) (rest : List Char) :
    noDigitLead (renderFieldsSep fs ++ rbraceChar :: rest) = true := by
  cases fs <;> rfl

theorem parse_render_main (fuel : Nat) :
    (∀ d rest, docFuel d ≤ fuel → Doc.clean d = true → noDigitLead rest = true →
      parseVal fuel (renderDoc d ++ rest) = some (d, rest)) ∧
    (∀ xs rest, tailFuel xs ≤ fuel → DocList.clean xs = true →
      parseArrTail fuel (renderSep xs ++ ']' :: rest) = some (xs, rest)) ∧
    (∀ k v rest, 1 + docFuel v ≤ fuel → strClean k = true → Doc.clean v = true →
      noDigitLead rest = true →
      parseField fuel (renderField k v ++ rest) = some ((k, v), rest)) ∧
    (∀ fs rest, objTailFuel fs ≤ fuel → DocFields.clean fs = true →
      parseObjTail fuel (renderFieldsSep fs ++ rbraceChar :: rest) = some (fs, rest)) := by
  induction fuel with
  | zero =>
    refine ⟨?_, ?_, ?_, ?_⟩
    · intro d rest hf _ _
      exact absurd hf (by have := docFuel_pos d; omega)
    · intro xs rest hf _
      exact absurd hf (by have := tailFuel_pos xs; omega)
    · intro k v rest hf _ _ _
      exact absurd hf (by omega)
    · intro fs rest hf _
      exact absurd hf (by have := objTailFuel_pos fs; omega)
  | succ fuel ih =>
    obtain ⟨ihV, ihA, ihF, ihO⟩ := ih
    refine ⟨?_, ?_, ?_, ?_⟩
    · intro d rest hf hc hnd
      cases d with
      | str s =>
        obtain ⟨sd⟩ := s
        have hcq : ∀ c ∈ sd, c ≠ quoteChar :=
          strClean_chars (s := ⟨sd⟩) (by simpa [Doc.clean] using hc)
        have hshape : renderDoc (.str ⟨sd⟩) ++ rest = quoteChar :: (sd ++ quoteChar :: rest) := by
          simp [renderDoc]
        rw [hshape]
        simp only [parseVal]
        rw [if_true, parseStringBody_append sd rest hcq]
      | nat n =>
        obtain ⟨c, t, hct, hdg⟩ := natChars_cons n
        have hshape : renderDoc (.nat n) ++ rest = c :: (t ++ rest) := by
          simp [renderDoc, hct]
        rw [hshape]
        simp only [parseVal]
        rw [if_neg (by intro e; subst e; exact absurd hdg (by decide)),
            if_neg (by intro e; subst e; exact absurd hdg (by decide)),
            if_neg (by intro e; subst e; exact absurd hdg (by decide)),
            if_pos hdg]
        have hrw : c :: (t ++ rest) = natChars n ++ rest := by rw [hct]; simp
        rw [hrw, spanDigits_append _ _ (natChars_digits n) hnd, digitsToNat_natChars]
      | arr xs =>
        cases xs with
        | nil =>
          have hshape : renderDoc (.arr .nil) ++ rest = '[' :: ']' :: rest := by
            simp [renderDoc]
          rw [hshape]
          simp only [parseVal]
          rw [if_neg (by decide), if_true, if_true]
        | cons x tl =>
          obtain ⟨c2, t2, hx, hne1, _⟩ := renderDoc_cons x
          have hfx : docFuel x ≤ fuel := by simp [docFuel] at hf; omega
          have hftl : tailFuel tl ≤ fuel := by simp [docFuel] at hf; omega
          have hcx : Doc.clean x = true := by
            simp only [Doc.clean, DocList.clean, Bool.and_eq_true] at hc; exact hc.1
          have hctl : DocList.clean tl = true := by
            simp only [Doc.clean, DocList.clean, Bool.and_eq_true] at hc; exact hc.2
          have hshape : renderDoc (.arr (.cons x tl)) ++ rest =
              '[' :: c2 :: (t2 ++ (renderSep tl ++ ']' :: rest)) := by
            simp [renderDoc, hx]
          rw [hshape]
          simp only [parseVal]
          rw [if_neg (by decide), if_true, if_neg hne1]
          have hfull : c2 :: (t2 ++ (renderSep tl ++ ']' :: rest)) =
              renderDoc x ++ (renderSep tl ++ ']' :: rest) := by rw [hx]; simp
          rw [hfull]
          simp only [ihV x _ hfx hcx (noDigitLead_sep tl _), ihA tl rest hftl hctl]
      | obj fs =>
        cases fs with
        | nil =>
          have hshape : renderDoc (.obj .nil) ++ rest = lbraceChar :: rbraceChar :: rest := by
            simp [renderDoc]
          rw [hshape]
          simp only [parseVal]
          rw [if_neg (by decide), if_neg (by decide), if_true, if_true]
        | cons k v tl =>
          have hfv : 1 + docFuel v ≤ fuel := by simp [docFuel] at hf; omega
          have hftl : objTailFuel tl ≤ fuel := by simp [docFuel] at hf; omega
          have hck : strClean k = true := by
            simp only [Doc.clean, DocFields.clean, Bool.and_eq_true] at hc; exact hc.1.1
          have hcv : Doc.clean v = true := by
            simp only [Doc.clean, DocFields.clean, Bool.and_eq_true] at hc; exact hc.1.2
          have hctl : DocFields.clean tl = true := by
            simp only [Doc.clean, DocFields.clean, Bool.and_eq_true] at hc; exact hc.2
          have hshape : renderDoc (.obj (.cons k v tl)) ++ rest =
              lbraceChar :: quoteChar ::
                (k.data ++ quoteChar :: ':' :: ' ' ::
                  (renderDoc v ++ (renderFieldsSep tl ++ rbraceChar :: rest))) := by
            rw [renderDoc_obj_cons]
            simp [renderField]
          rw [hshape]
          simp only [parseVal]
          rw [if_neg (by decide), if_neg (by decide), if_true, if_neg (by decide)]
          have hfull : quoteChar ::
              (k.data ++ quoteChar :: ':' :: ' ' ::
                (renderDoc v ++ (renderFieldsSep tl ++ rbraceChar :: rest))) =
              renderField k v ++ (renderFieldsSep tl ++ rbraceChar :: rest) := by
            simp [renderField]
          rw [hfull]
          simp only [ihF k v _ hfv hck hcv (noDigitLead_fieldsSep tl _), ihO tl rest hftl hctl]
    · intro xs rest hf hcl
      cases xs with
      | nil =>
        show parseArrTail (fuel + 1) (']' :: rest) = some (.nil, rest)
        simp only [parseArrTail]
        rw [if_true]
      | cons x tl =>
        have hfx : docFuel x ≤ fuel := by simp [tailFuel] at hf; omega
        have hftl : tailFuel tl ≤ fuel := by simp [tailFuel] at hf; omega
        have hcx : Doc.clean x = true := by
          simp only [DocList.clean, Bool.and_eq_true] at hcl; exact hcl.1
        have hctl : DocList.clean tl = true := by
          simp only [DocList.clean, Bool.and_eq_true] at hcl; exact hcl.2
        have hshape : renderSep (.cons x tl) ++ ']' :: rest =
            ',' :: ' ' :: (renderDoc x ++ (renderSep tl ++ ']' :: rest)) := by
          simp [renderSep]
        rw [hshape]
        simp only [parseArrTail]
        rw [if_neg (by decide), if_true]
        simp only [ihV x _ hfx hcx (noDigitLead_sep tl _), ihA tl rest hftl hctl]
    · intro k v rest hf hk hv hnd
      have hfv : docFuel v ≤ fuel := by omega
      have hcq : ∀ c ∈ k.data, c ≠ quoteChar := strClean_chars hk
      have hshape : renderField k v ++ rest =
          quoteChar :: (k.data ++ quoteChar :: ':' :: ' ' :: (renderDoc v ++ rest)) := by
        simp [renderField]
      rw [hshape]
      simp only [parseField]
      rw [if_true, parseStringBody_append k.data _ hcq]
      simp only [ihV v rest hfv hv hnd]
    · intro fs rest hf hcl
      cases fs with
      | nil =>
        show parseObjTail (fuel + 1) (rbraceChar :: rest) = some (.nil, rest)
        simp only [parseObjTail]
        rw [if_true]
      | cons k v tl =>
        have hfv : 1 + docFuel v ≤ fuel := by simp [objTailFuel] at hf; omega
        have hftl : objTailFuel tl ≤ fuel := by simp [objTailFuel] at hf; omega
        have hck : strClean k = true := by
          simp only [DocFields.clean, Bool.and_eq_true] at hcl; exact hcl.1.1
        have hcv : Doc.clean v = true := by
          simp only [DocFields.clean, Bool.and_eq_true] at hcl; exact hcl.1.2
        have hctl : DocFields.clean tl = true := by
          simp only [DocFields.clean, Bool.and_eq_true] at hcl; exact hcl.2
        have hshape : renderFieldsSep (.cons k v tl) ++ rbraceChar :: rest =
            ',' :: ' ' :: (renderField k v ++ (renderFieldsSep tl ++ rbraceChar :: rest)) := by
          rw [renderFieldsSep_cons]
          simp
        rw [hshape]
        simp only [parseObjTail]
        rw [if_neg (by decide), if_true]
        simp only [ihF k v _ hfv hck hcv (noDigitLead_fieldsSep tl _), ihO tl rest hftl hctl]

mutual

theorem docFuel_le_render : ∀ d : Doc, docFuel d ≤ (renderDoc d).length + 1
  | .str s => by simp [docFuel, renderDoc]
  | .nat n => by simp [docFuel]
  | .arr .nil => by simp [docFuel, renderDoc]
  | .arr (.cons x xs) => by
    have h1 := docFuel_le_render x
    have h2 := tailFuel_le_render xs
    simp only [docFuel, renderDoc, List.length_cons, List.length_append,
      List.length_singleton] at *
    omega
  | .obj .nil => by simp [docFuel, renderDoc]
  | .obj (.cons k v fs) => by
    have h1 := docFuel_le_render v
    have h2 := objTailFuel_le_render fs
    simp only [docFuel, renderDoc_obj_cons, renderField, List.length_cons,
      List.length_append, List.length_singleton] at *
    omega
termination_by structural d => d

theorem tailFuel_le_render : ∀ xs : DocList, tailFuel xs ≤ (renderSep xs).length + 1
  | .nil => by simp [tailFuel, renderSep]
  | .cons x xs => by
    have h1 := docFuel_le_render x
    have h2 := tailFuel_le_render xs
    simp only [tailFuel, renderSep, List.length_cons, List.length_append] at *
    omega
termination_by structural xs => xs

theorem objTailFuel_le_render :
    ∀ fs : DocFields, objTailFuel fs ≤ (renderFieldsSep fs).length + 1
  | .nil => by simp [objTailFuel, renderFieldsSep]
  | .cons k v fs => by
    have h1 := docFuel_le_render v
    have h2 := objTailFuel_le_render fs
    simp only [objTailFuel, renderFieldsSep_cons, renderField, List.length_cons,
      List.length_append] at *
    omega
termination_by structural fs => fs

end

theorem parseVal_renderDoc (d : Doc) (fuel : Nat) (hf : docFuel d ≤ fuel)
    (hc : Doc.clean d = true) : parseVal fuel (renderDoc d) = some (d, []) := by
  have h := (parse_render_main fuel).1 d [] hf hc rfl
  simpa using h

/-- Round trip: deserializing a serialized clean document is the identity. -/
theorem Doc.parse_render (d : Doc) (hc : Doc.clean d = true) :
    Doc.parse (Doc.render d) = some d := by
  have hf : docFuel d ≤ docParseFuel (Doc.render d) := by
    have h := docFuel_le_render d
    simpa [docParseFuel, Doc.render] using h
  unfold Doc.parse
  rw [show (Doc.render d).data = renderDoc d from rfl, parseVal_renderDoc d _ hf hc]

/-! ## Cluster data model -/

/-- Modelled from the spec: `PortMapping` (telepresence/cli.py is not under
src/).  Spec §3: a "set of ports to expose (with a distinction between
locally-only and remotely-reachable ports)"; §4.1: a port is privileged when
it is below 1024.  `remotePorts` lists the remotely reachable ports. -/
structure PortMapping where
  localOnly : List Nat
  remotePorts : List Nat
deriving Repr, DecidableEq

/-- `PortMapping.remote()`: the remotely reachable ports. -/
def PortMapping.remote (pm : PortMapping) : List Nat := pm.remotePorts

/-- `PortMapping.has_privileged_ports()`: some requested port is below 1024. -/
def PortMapping.has_privileged_ports (pm : PortMapping) : Bool :=
  (pm.localOnly ++ pm.remotePorts).any (fun p => decide (p < 1024))

/-- The cluster-client facts read by the embedded code (`runner.kubectl` in the
source): the client command in use, whether the cluster reports OpenShift, and
whether it runs inside a local VM. -/
structure KubeCtl where
  command : String
  cluster_is_openshift : Bool
  in_local_vm : Bool
deriving Repr, DecidableEq

/-- The argparse namespace fields read by `setup` (populated by the excluded
CLI layer). -/
structure Args where
  deployment : Option String
  new_deployment : Option String
  swap_deployment : Option String
  deployment_arg : String
  expose : PortMapping
  service_account : String
  method : String
  operation : String
deriving Repr, DecidableEq

/-- Oracle fixing the outcome of each external cluster interaction during one
run: probe successes, captured remote stderr text, readiness outcomes, the
fallback-nameserver lookup, the session id (`runner.session_id`) and the
results returned by the legacy deployment delegates. -/
structure ClusterEnv where
  dcProbeOk : Bool
  dcProbeErr : String
  serviceAccountOk : Bool
  serviceAccountErr : String
  createOk : Bool
  createErr : String
  podReady : Bool
  alternate_nameserver : Option String
  nameserverErr : String
  session_id : String
  legacyDeployment : String
  legacyRunId : Option String
  correlatedPod : Option String
deriving Repr, DecidableEq

/-- One recorded interaction with the cluster control plane. -/
inductive ClusterCall where
  | check_call (args : List String) (input : Option String)
  | legacyMutate (delegate : String) (deployment_arg : String)
  | waitForPod (pod_name : String)
  | getRemoteInfo (deployment : String) (kind : String)
deriving Repr, DecidableEq

/-- A registered cleanup: its description plus the kubectl arguments its
action will run (`runner.add_cleanup` in the source). -/
structure CleanupRecord where
  description : String
  deleteArgs : List String
deriving Repr, DecidableEq

/-- Mutable runner state threaded through the embedding: the ordered trace of
cluster calls, the process-wide cleanup registry, and the shown messages. -/
structure RunState where
  calls : List ClusterCall
  cleanups : List CleanupRecord
  messages : List String
deriving Repr, DecidableEq

def RunState.addCall (s : RunState) (c : ClusterCall) : RunState :=
  { s with calls := s.calls ++ [c] }

def RunState.addMsg (s : RunState) (m : String) : RunState :=
  { s with messages := s.messages ++ [m] }

def RunState.addCleanup (s : RunState) (c : CleanupRecord) : RunState :=
  { s with cleanups := s.cleanups ++ [c] }

/-- The initial, empty runner state. -/
def RunState.init : RunState := ⟨[], [], []⟩

/-- Abnormal outcomes: `fail` is `runner.fail` (SystemExit with a message);
`timeout` models `TimeoutError` from bounded polling; `invalidState` models a
failing Python `assert`; `unboundLocal` models Python's UnboundLocalError when
a never-assigned local variable is read. -/
inductive Err where
  | fail (msg : String)
  | timeout (msg : String)
  | invalidState (msg : String)
  | unboundLocal (var : String)
deriving Repr, DecidableEq

/-- Split a character list at the first colon, `none` when no colon occurs. -/
def splitColonChars : List Char → Option (List Char × List Char)
  | [] => none
  | c :: cs =>
    if c = ':' then some ([], cs)
    else
      match splitColonChars cs with
      | some (a, b) => some (c :: a, b)
      | none => none

/-- Python `name.split(":", 1)` when a colon is present, else `(name, "")`:
the pattern `name, container = args.deployment_arg, ""` followed by the
conditional split in the source. -/
def splitColon (name : String) : String × String :=
  match splitColonChars name.data with
  | some (a, b) => (String.mk a, String.mk b)
  | none => (name, "")

/-- Embedding of `_dc_exists` (proxy.py lines 46-67): answer `False` without
any cluster call unless the client command is `oc` and the cluster reports
OpenShift; otherwise probe `get dc/<name>`, degrading to `False` with logged
messages when the probe command fails. -/
def dc_exists (env : ClusterEnv) (kube : KubeCtl) (name : String) (s : RunState) :
    Bool × RunState :=
  if kube.command ≠ "oc" ∨ kube.cluster_is_openshift = false then (false, s)
  else
    let n := (splitColon name).1
    let s := s.addCall (.check_call ["get", "dc/" ++ n] none)
    if env.dcProbeOk then (true, s)
    else
      (false,
        ((s.addMsg ("Failed to find OpenShift deploymentconfig " ++ n ++ ":")).addMsg
            ("  " ++ env.dcProbeErr)).addMsg
          "Will try regular Kubernetes Deployment.")

/-- The five operation strategies: the `Type[ProxyOperation]` values assigned
to `operationType` in `setup`. -/
inductive OperationKind where
  | New
  | ExistingDeploy
  | ExistingDC
  | SwapDeploy
  | SwapDC
deriving Repr, DecidableEq

/-- Embedding of the `ProxyIntent` NamedTuple (proxy.py lines 35-43). -/
structure ProxyIntent where
  name : String
  container : String
  expose : PortMapping
  custom_nameserver : Option String
  service_account : String
deriving Repr, DecidableEq

/-- Modelled from the spec: `RemoteInfo` (telepresence/proxy/remote.py is not
under src/).  Spec §3: "resolved handle to the pod backing the proxy — name,
namespace, owning-resource kind, optional run-id correlation token"; reduced
to the fields the claims observe. -/
structure RemoteInfo where
  pod_name : String
  deployment_type : String
  run_id : Option String
deriving Repr, DecidableEq

/-- Modelled from the spec: `get_image_name` (telepresence/proxy/deployment.py
is not under src/).  Spec §4.3: the container "image chosen by requested
exposed ports". -/
def get_image_name (expose : PortMapping) : String :=
  if expose.has_privileged_ports then "datawire/telepresence-k8s-priv"
  else "datawire/telepresence-k8s"

/-- String-keyed mapping as document fields. -/
def envFields : List (String × String) → DocFields
  | [] => .nil
  | (k, v) :: rest => .cons k (.str v) (envFields rest)

/-- Decimal string of a natural number. -/
def natStr (n : Nat) : String := String.mk (natChars n)

/-- Port mapping as document fields; JSON object keys are strings, so the
numeric keys are rendered in decimal as `json.dumps` does. -/
def portFields : List (Nat × Nat) → DocFields
  | [] => .nil
  | (a, b) :: rest => .cons (natStr a) (.nat b) (portFields rest)

/-- Modelled from the spec: `make_new_proxy_pod_manifest`
(telepresence/proxy/manifest.py is not under src/).  Spec §4.3/§6: a Pod
document with `apiVersion`, `kind`, `metadata.name`, `metadata.labels`
carrying the session-id label, and a spec holding the container image, the
service-account reference and an environment mapping. -/
def make_new_proxy_pod_manifest (name session_id image service_account : String)
    (env : List (String × String)) : Doc :=
  .obj (.cons "apiVersion" (.str "v1")
    (.cons "kind" (.str "Pod")
      (.cons "metadata"
        (.obj (.cons "name" (.str name)
          (.cons "labels" (.obj (.cons "telepresence" (.str session_id) .nil)) .nil)))
        (.cons "spec"
          (.obj (.cons "image" (.str image)
            (.cons "serviceAccountName" (.str service_account)
              (.cons "env" (.obj (envFields env)) .nil))))
          .nil))))

/-- Modelled from the spec: `make_svc_manifest` (telepresence/proxy/manifest.py
is not under src/).  Spec §4.3: "optionally a Service document with a
deterministic name, selector and labels keyed by session id, and a
port-mapping list where each remotely-exposed port maps identity-to-itself". -/
def make_svc_manifest (name : String) (selector labels : List (String × String))
    (ports : List (Nat × Nat)) : Doc :=
  .obj (.cons "apiVersion" (.str "v1")
    (.cons "kind" (.str "Service")
      (.cons "metadata"
        (.obj (.cons "name" (.str name)
          (.cons "labels" (.obj (envFields labels)) .nil)))
        (.cons "spec"
          (.obj (.cons "selector" (.obj (envFields selector))
            (.cons "ports" (.obj (portFields ports)) .nil)))
          .nil))))

/-- Modelled from the spec: `make_k8s_list` (telepresence/proxy/manifest.py is
not under src/).  Spec §6: a submission batch is wrapped as a document of kind
"List" with the wrapped documents under `items`. -/
def make_k8s_list (manifests : List Doc) : Doc :=
  .obj (.cons "apiVersion" (.str "v1")
    (.cons "kind" (.str "List")
      (.cons "items" (.arr (DocList.ofList manifests)) .nil)))

/-- Look up a key among object fields. -/
def DocFields.lookup : DocFields → String → Option Doc
  | .nil, _ => none
  | .cons k v rest, key => if k = key then some v else DocFields.lookup rest key

/-- Look up a field of an object document. -/
def Doc.field : Doc → String → Option Doc
  | .obj fs, key => fs.lookup key
  | _, _ => none

/-- Modelled from the spec: `make_remote_info_from_pod`
(telepresence/proxy/remote.py is not under src/).  Predictive resolution: the
RemoteInfo is built directly from the not-yet-submitted Pod manifest, whose
name is known in advance. -/
def make_remote_info_from_pod (pod : Doc) : RemoteInfo :=
  { pod_name :=
      match pod.field "metadata" with
      | some m =>
        match m.field "name" with
        | some (.str s) => s
        | _ => ""
      | none => ""
    deployment_type := "pod"
    run_id := none }

/-- A constructed ProxyOperation: its kind, the captured immutable intent, and
the object state `New.prepare` stores (`self.manifests`, `self.remote_info`). -/
structure Operation where
  kind : OperationKind
  intent : ProxyIntent
  manifests : List Doc
  remote_info : Option RemoteInfo
deriving Repr

/-- Embedding of `ProxyOperation.prepare`: a no-op except for `New.prepare`
(proxy.py lines 197-227), which builds the Pod manifest, the Service manifest
when some port is remotely reachable, and the predictive RemoteInfo. -/
def Operation.prepare (env : ClusterEnv) (op : Operation) : Operation :=
  match op.kind with
  | .New =>
    let envmap : List (String × String) :=
      match op.intent.custom_nameserver with
      | some ns1 => [("TELEPRESENCE_NAMESERVER", ns1)]
      | none => []
    let pod := make_new_proxy_pod_manifest op.intent.name env.session_id
      (get_image_name op.intent.expose) op.intent.service_account envmap
    let manifests := [pod]
    let manifests :=
      if op.intent.expose.remote ≠ [] then
        manifests ++ [make_svc_manifest op.intent.name
          [("telepresence", env.session_id)] [("telepresence", env.session_id)]
          (op.intent.expose.remote.map (fun p => (p, p)))]
      else manifests
    { op with manifests := manifests, remote_info := some (make_remote_info_from_pod pod) }
  | _ => op

/-- The kubectl arguments of the cleanup action registered by `New.act`:
delete by session-label selector, tolerating already-deleted resources
(`--ignore-not-found`) and not blocking on completion (`--wait=false`). -/
def newCleanupArgs (session_id : String) : List String :=
  ["delete", "--ignore-not-found", "--wait=false",
   "--selector=telepresence=" ++ session_id, "svc,pod"]

/-- Embedding of `New.act` (proxy.py lines 229-267): submit all manifests as
one List document in a single create call; on failure, fail with the captured
stderr and register no cleanup; on success, register the cleanup record and
then wait for pod readiness (`wait_for_pod` lives in remote.py, not under
src/, and is modelled from the spec: bounded polling that raises TimeoutError
on expiry). -/
def newAct (env : ClusterEnv) (op : Operation) (s : RunState) :
    Except Err RemoteInfo × RunState :=
  match op.remote_info with
  | none => (.error (.invalidState "assert self.remote_info is not None"), s)
  | some ri =>
    let s := s.addMsg ("Starting network proxy to cluster using new Pod " ++ op.intent.name)
    let manifest_json := (make_k8s_list op.manifests).render
    let s := s.addCall (.check_call ["create", "-f", "-"] (some manifest_json))
    if env.createOk = false then
      (.error (.fail ("Failed to create Pod/Service " ++ op.intent.name ++ ":\n" ++
        env.createErr)), s)
    else
      let s := s.addCleanup ⟨"Delete new Pod/Service", newCleanupArgs env.session_id⟩
      let s := s.addCall (.waitForPod ri.pod_name)
      if env.podReady then (.ok ri, s)
      else (.error (.timeout ("Pod " ++ ri.pod_name ++ " never became ready")), s)

/-- Embedding of `ProxyOperation._legacy` (proxy.py lines 168-193).  The
delegate functions (telepresence/proxy/deployment.py, not under src/) and
`get_remote_info` (remote.py, not under src/) are modelled from the spec: the
delegate mutates the workload returning a handle and a run-id token, then the
cluster is polled for the correlated pod, `TimeoutError` on exhaustion. -/
def legacyAct (env : ClusterEnv) (op : Operation) (delegate : String)
    (deployment_type : String) (s : RunState) : Except Err RemoteInfo × RunState :=
  let deployment_arg :=
    if op.intent.container ≠ "" then op.intent.name ++ ":" ++ op.intent.container
    else op.intent.name
  let s := s.addCall (.legacyMutate delegate deployment_arg)
  let s := s.addCall (.getRemoteInfo env.legacyDeployment deployment_type)
  match env.correlatedPod with
  | some p => (.ok ⟨p, deployment_type, env.legacyRunId⟩, s)
  | none => (.error (.timeout "Pod with run_id never appeared"), s)

/-- Embedding of `ProxyOperation.act` dispatch: `New.act` plus the four legacy
variants (proxy.py lines 270-291), each fixing a delegate function and a
resource-kind label. -/
def Operation.act (env : ClusterEnv) (op : Operation) (s : RunState) :
    Except Err RemoteInfo × RunState :=
  match op.kind with
  | .New => newAct env op s
  | .ExistingDeploy => legacyAct env op "existing_deployment" "deployment" s
  | .ExistingDC => legacyAct env op "existing_deployment_openshift" "deploymentconfig" s
  | .SwapDeploy => legacyAct env op "supplant_deployment" "deployment" s
  | .SwapDC => legacyAct env op "swap_deployment_openshift" "deploymentconfig" s

/-- Embedding of `setup` (proxy.py lines 70-150).  Returns the prepared
operation — whose `act` is the callable the Python function returns — or the
abnormal outcome, together with the final runner state. -/
def setup (env : ClusterEnv) (kube : KubeCtl) (args : Args) (s : RunState) :
    Except Err Operation × RunState :=
  if args.expose.has_privileged_ports && kube.cluster_is_openshift then
    (.error (.fail "OpenShift does not support ports <1024."), s)
  else
    let saStep : Except Err Unit × RunState :=
      if args.service_account ≠ "" then
        let s1 := s.addCall (.check_call ["get", "serviceaccount", args.service_account] none)
        if env.serviceAccountOk then (.ok (), s1)
        else
          (.error (.fail ("Check service account " ++ args.service_account ++ " failed:\n" ++
            env.serviceAccountErr)), s1)
      else (.ok (), s)
    match saStep with
    | (.error e, s) => (.error e, s)
    | (.ok _, s) =>
      let sel1s : Option OperationKind × RunState :=
        if args.deployment.isSome then
          let p := dc_exists env kube args.deployment_arg s
          (some (if p.1 then .ExistingDC else .ExistingDeploy), p.2)
        else (none, s)
      let sel2s : Option OperationKind × RunState :=
        (if args.new_deployment.isSome then some .New else sel1s.1, sel1s.2)
      let sel3s : Option OperationKind × RunState :=
        if args.swap_deployment.isSome then
          let p := dc_exists env kube args.deployment_arg sel2s.2
          (some (if p.1 then .SwapDC else .SwapDeploy), p.2)
        else sel2s
      let s := sel3s.2
      let nc := splitColon args.deployment_arg
      let nsStep : Except Err (Option String) × RunState :=
        if args.method = "vpn-tcp" && kube.in_local_vm then
          if args.operation = "deployment" then
            (.error (.fail ("vpn-tcp method doesn't work with minikube/minishift when" ++
              " using --deployment. Use --swap-deployment or" ++
              " --new-deployment instead.")), s)
          else
            match env.alternate_nameserver with
            | some ns1 => (.ok (some ns1), s)
            | none =>
              (.error (.fail ("Failed to find a fallback nameserver: " ++
                env.nameserverErr)), s)
        else (.ok none, s)
      match nsStep with
      | (.error e, s) => (.error e, s)
      | (.ok custom_nameserver, s) =>
        match sel3s.1 with
        | none => (.error (.unboundLocal "operationType"), s)
        | some k =>
          let intent : ProxyIntent :=
            ⟨nc.1, nc.2, args.expose, custom_nameserver, args.service_account⟩
          let op : Operation := ⟨k, intent, [], none⟩
          let op := op.prepare env
          (.ok op, s)

/-- The full flow the (excluded) caller performs: `setup` followed by invoking
the returned `act` callable. -/
def setupAndAct (env : ClusterEnv) (kube : KubeCtl) (args : Args) (s : RunState) :
    Except Err RemoteInfo × RunState :=
  match setup env kube args s with
  | (.ok op, s1) => op.act env s1
  | (.error e, s1) => (.error e, s1)

/-- The boolean the DeploymentConfig probe yields, independent of the state it
threads: true exactly when the client command is `oc`, the cluster reports
OpenShift, and the `get dc/<name>` probe succeeds. -/
def dcProbe (env : ClusterEnv) (kube : KubeCtl) : Bool :=
  (kube.command == "oc") && kube.cluster_is_openshift && env.dcProbeOk

theorem dc_exists_fst (env : ClusterEnv) (kube : KubeCtl) (name : String) (s : RunState) :
    (dc_exists env kube name s).1 = dcProbe env kube := by
  unfold dc_exists dcProbe
  split
  · next h =>
    rcases h with h | h
    · simp [show (kube.command == "oc") = false from by simpa using h]
    · simp [h]
  · next h =>
    push_neg at h
    split <;> simp_all

/-! ## Span tracer -/

/-- One span object (span.py lines 22-44): tag, parent back-reference (by
index into the store), owned children (by index), depth, optional start and
end timestamps and the verbose flag.  Timestamps are naturals; one clock tick
models a tenth of a second. -/
structure SpanData where
  tag : String
  parent : Option Nat
  children : List Nat
  depth : Nat
  start_time : Option Nat
  end_time : Option Nat
  verbose : Bool
deriving Repr, DecidableEq

/-- Tracer state: the span store (a span's id is its index), the runner's
`current_span` pointer, the written output lines, the model clock read by
`time()`, and the process-wide `Span.emit_summary` flag. -/
structure TraceState where
  spans : List SpanData
  current_span : Option Nat
  output : List String
  clock : Nat
  emit_summary : Bool
deriving Repr, DecidableEq

/-- Embedding of `Span.__init__` (span.py lines 26-44): allocate the span,
append it to its parent's child list, and compute its depth as the parent's
depth plus one (zero at the root). -/
def newSpan (st : TraceState) (tag : String) (parent : Option Nat) (verbose : Bool) :
    Nat × TraceState :=
  let i := st.spans.length
  match parent with
  | none =>
    (i, { st with spans := st.spans ++ [⟨tag, none, [], 0, none, none, verbose⟩] })
  | some p =>
    match st.spans[p]? with
    | none =>
      (i, { st with spans := st.spans ++ [⟨tag, some p, [], 0, none, none, verbose⟩] })
    | some pd =>
      let spans := st.spans.set p { pd with children := pd.children ++ [i] }
      (i, { st with spans := spans ++ [⟨tag, some p, [], pd.depth + 1, none, none, verbose⟩] })

/-- Embedding of `Span.begin` (span.py lines 46-49): record the start
timestamp and, when verbose, write the entry line. -/
def beginSpan (st : TraceState) (i : Nat) : TraceState :=
  match st.spans[i]? with
  | none => st
  | some sp =>
    let st1 := { st with spans := st.spans.set i { sp with start_time := some st.clock } }
    if sp.verbose then { st1 with output := st1.output ++ ["BEGIN SPAN " ++ sp.tag] }
    else st1

/-- Width-six rendering `whole.tenth` of a duration in clock ticks followed by
`s`: the shape of the source's format of width 6 with one decimal. -/
def fmtSpent (n : Nat) : String :=
  let body := natStr (n / 10) ++ "." ++ natStr (n % 10)
  String.mk (List.replicate (6 - body.length) ' ') ++ body ++ "s"

/-- The placeholder printed for a span that never ended. -/
def spentPlaceholder : String := "   ???"

/-- Python truthiness of an optional float timestamp: `None` and `0` are
falsy. -/
def pyTruthy : Option Nat → Bool
  | none => false
  | some n => decide (n ≠ 0)

/-- Embedding of `Span.summarize` (span.py lines 64-73): one written line
`spent ++ indent ++ " " ++ tag` per span of the subtree in preorder, the
indent two spaces per depth level.  The recursion over the object graph is
fueled; callers supply fuel covering the store.  (Where the source asserts
`start_time is not None` before formatting, the model renders from a zero
default.) -/
def summarizeLines (spans : List SpanData) : Nat → Nat → List String
  | 0, _ => []
  | fuel + 1, i =>
    match spans[i]? with
    | none => []
    | some sp =>
      let indent := String.mk (List.replicate (2 * sp.depth) ' ')
      let spent :=
        if pyTruthy sp.end_time then fmtSpent (sp.end_time.getD 0 - sp.start_time.getD 0)
        else spentPlaceholder
      (spent ++ indent ++ " " ++ sp.tag) ::
        (sp.children.map (fun c => summarizeLines spans fuel c)).flatten

/-- Embedding of `Span.end` (span.py lines 51-62), in source order: write the
end timestamp, then assert the span began, restore the runner's `current_span`
to the parent when this span is the active one, write the verbose exit line,
and — for a parentless span when `Span.emit_summary` is set — write the
summary header followed by the summary lines.  Returns the elapsed time. -/
def endSpan (st : TraceState) (i : Nat) : Except Err Nat × TraceState :=
  match st.spans[i]? with
  | none => (.error (.invalidState "no such span"), st)
  | some sp =>
    let st1 := { st with spans := st.spans.set i { sp with end_time := some st.clock } }
    match sp.start_time with
    | none => (.error (.invalidState "assert self.start_time is not None"), st1)
    | some t0 =>
      let spent := st.clock - t0
      let st2 :=
        if st1.current_span = some i then { st1 with current_span := sp.parent } else st1
      let st3 :=
        if sp.verbose then
          { st2 with output := st2.output ++ ["END SPAN " ++ sp.tag ++ " " ++ fmtSpent spent] }
        else st2
      if sp.parent = none ∧ st3.emit_summary = true then
        let st4 := { st3 with output := st3.output ++ ["SPAN SUMMARY:"] }
        (.ok spent,
          { st4 with output := st4.output ++ summarizeLines st4.spans st4.spans.length i })
      else (.ok spent, st3)

/-- Advance the model clock. -/
def tick (st : TraceState) (dt : Nat) : TraceState := { st with clock := st.clock + dt }

/-- Modelled from the spec: the runner (telepresence/runner/runner.py, not
under src/) maintains the tracer's active pointer — "the tree's `active`
pointer always refers to the most recently begun, not-yet-ended span" (§3).
Allocate a span under the currently active span, begin it, make it active. -/
def beginNestedSpan (st : TraceState) (tag : String) (verbose : Bool) : TraceState :=
  let p := newSpan st tag st.current_span verbose
  let st1 := beginSpan p.2 p.1
  { st1 with current_span := some p.1 }

/-- The tracer state after beginning a root span and then `n` further nested
begins, from a fresh tracer with the summarize flag set and clock 1. -/
def chainState : Nat → TraceState
  | 0 => beginNestedSpan ⟨[], none, [], 1, true⟩ "span" false
  | n + 1 => beginNestedSpan (chainState n) "span" false

/-- The span record at index `i` of the `n`-deep chain before the root ends. -/
def chainSpan (n i : Nat) : SpanData :=
  ⟨"span", if i = 0 then none else some (i - 1),
   if i = n then [] else [i + 1], i, some 1, none, false⟩

/-- The summary line of span `i` of the chain after only the root (which took
one tick) has ended. -/
def chainLine (i : Nat) : String :=
  (if i = 0 then fmtSpent 1 else spentPlaceholder) ++
    String.mk (List.replicate (2 * i) ' ') ++ " " ++ "span"

/-! ## Claim theorems -/

/-- A default environment for concrete instantiations: every probe succeeds. -/
def env0 : ClusterEnv :=
  ⟨true, "", true, "", true, "", true, none, "", "sess1", "web", some "r1", some "web-pod"⟩

/-- C3: for every request whose exposed ports include a privileged port
(<1024) on an OpenShift-style cluster, `setup` raises the validation failure
before it issues any cluster call: the check is the first step of `setup`, so
the runner state — including the call trace — is returned unchanged, and
neither the service-account probe, nor the DeploymentConfig probe, nor any
mutation happens. -/
theorem C3_privileged_ports_fail_first (env : ClusterEnv) (kube : KubeCtl) (args : Args)
    (s : RunState) (hp : args.expose.has_privileged_ports = true)
    (ho : kube.cluster_is_openshift = true) :
    setup env kube args s = (.error (.fail "OpenShift does not support ports <1024."), s) := by
  unfold setup
  rw [if_pos (by simp [hp, ho])]

def argsC3 : Args := ⟨none, none, none, "web", ⟨[80], []⟩, "", "inject-tcp", ""⟩

def kubeOpenshift : KubeCtl := ⟨"oc", true, false⟩

theorem C3_witness :
    (argsC3.expose.has_privileged_ports = true ∧ kubeOpenshift.cluster_is_openshift = true) ∧
    setup env0 kubeOpenshift argsC3 RunState.init =
      (.error (.fail "OpenShift does not support ports <1024."), RunState.init) :=
  ⟨⟨by decide, by decide⟩,
   C3_privileged_ports_fail_first env0 kubeOpenshift argsC3 RunState.init (by decide) (by decide)⟩

/-- C7: `_dc_exists` returns `False` without issuing any cluster call when the
client command is not the OpenShift-flavored `oc` or the cluster does not
report OpenShift; and when the read-only `get` probe fails, the failure is
non-fatal: the function returns normally with `False`, logging the cause
(the captured stderr) among the messages. -/
theorem C7_dc_exists_degrades (env : ClusterEnv) (kube : KubeCtl) (name : String)
    (s : RunState) :
    (kube.command ≠ "oc" ∨ kube.cluster_is_openshift = false →
      dc_exists env kube name s = (false, s)) ∧
    (kube.command = "oc" → kube.cluster_is_openshift = true → env.dcProbeOk = false →
      dc_exists env kube name s =
        (false,
          ((((s.addCall (.check_call ["get", "dc/" ++ (splitColon name).1] none)).addMsg
              ("Failed to find OpenShift deploymentconfig " ++ (splitColon name).1 ++
                ":")).addMsg
            ("  " ++ env.dcProbeErr)).addMsg "Will try regular Kubernetes Deployment."))) := by
  constructor
  · intro h
    unfold dc_exists
    rw [if_pos h]
  · intro h1 h2 h3
    unfold dc_exists
    rw [if_neg (by simp [h1, h2])]
    simp only [h3]
    rfl

def kubePlain : KubeCtl := ⟨"kubectl", false, false⟩

def envProbeFail : ClusterEnv :=
  ⟨false, "dc not found", true, "", true, "", true, none, "", "sess1", "web", none, none⟩

theorem C7_witness :
    dc_exists env0 kubePlain "app" RunState.init = (false, RunState.init) ∧
    dc_exists envProbeFail kubeOpenshift "app:sidecar" RunState.init =
      (false,
        ⟨[.check_call ["get", "dc/app"] none], [],
         ["Failed to find OpenShift deploymentconfig app:", "  dc not found",
          "Will try regular Kubernetes Deployment."]⟩) :=
  ⟨(C7_dc_exists_degrades env0 kubePlain "app" RunState.init).1 (by left; decide),
   (C7_dc_exists_degrades envProbeFail kubeOpenshift "app:sidecar" RunState.init).2
     (by decide) (by decide) (by decide)⟩

/-- C2: in `New.act`, a CleanupRecord is registered iff the preceding create
call succeeded.  On failure, the operation aborts with the captured remote
diagnostic text and the cleanup registry is unchanged.  On success, the
cleanup — deleting pods and services by the session label, tolerating
already-deleted resources, non-blocking — is registered before the readiness
wait, so a readiness timeout still returns with the cleanup registered. -/
theorem C2_cleanup_iff_create (env : ClusterEnv) (op : Operation) (ri : RemoteInfo)
    (s : RunState) (hri : op.remote_info = some ri) :
    (env.createOk = false →
      (newAct env op s).1 =
        .error (.fail ("Failed to create Pod/Service " ++ op.intent.name ++ ":\n" ++
          env.createErr)) ∧
      (newAct env op s).2.cleanups = s.cleanups) ∧
    (env.createOk = true →
      (newAct env op s).2.cleanups =
        s.cleanups ++ [⟨"Delete new Pod/Service", newCleanupArgs env.session_id⟩] ∧
      (newAct env op s).2.calls =
        s.calls ++ [.check_call ["create", "-f", "-"] (some (make_k8s_list op.manifests).render),
          .waitForPod ri.pod_name] ∧
      (env.podReady = false →
        (newAct env op s).1 =
          .error (.timeout ("Pod " ++ ri.pod_name ++ " never became ready")))) ∧
    ((newAct env op s).2.cleanups ≠ s.cleanups ↔ env.createOk = true) := by
  have hfail : env.createOk = false →
      (newAct env op s).1 =
        .error (.fail ("Failed to create Pod/Service " ++ op.intent.name ++ ":\n" ++
          env.createErr)) ∧
      (newAct env op s).2.cleanups = s.cleanups := by
    intro h
    unfold newAct
    rw [hri]
    simp [h, RunState.addCall, RunState.addMsg]
  have hok : env.createOk = true →
      (newAct env op s).2.cleanups =
        s.cleanups ++ [⟨"Delete new Pod/Service", newCleanupArgs env.session_id⟩] ∧
      (newAct env op s).2.calls =
        s.calls ++ [.check_call ["create", "-f", "-"] (some (make_k8s_list op.manifests).render),
          .waitForPod ri.pod_name] ∧
      (env.podReady = false →
        (newAct env op s).1 =
          .error (.timeout ("Pod " ++ ri.pod_name ++ " never became ready"))) := by
    intro h
    unfold newAct
    rw [hri]
    cases hp : env.podReady <;>
      simp [h, hp, RunState.addCall, RunState.addMsg, RunState.addCleanup]
  refine ⟨hfail, hok, ?_⟩
  constructor
  · intro hne
    by_contra hcf
    have hc0 : env.createOk = false := by
      cases h : env.createOk
      · rfl
      · exact absurd h hcf
    exact hne (hfail hc0).2
  · intro hc
    rw [(hok hc).1]
    intro h
    have hlen := congrArg List.length h
    simp at hlen

def intentC2 : ProxyIntent := ⟨"web", "", ⟨[], [8080]⟩, none, ""⟩

def opC2 : Operation := Operation.prepare env0 ⟨.New, intentC2, [], none⟩

def envCreateFail : ClusterEnv :=
  ⟨true, "", true, "", false, "quota exceeded", true, none, "", "sess1", "web", none, none⟩

theorem C2_witness :
    (opC2.remote_info = some ⟨"web", "pod", none⟩) ∧
    (newAct envCreateFail opC2 RunState.init).2.cleanups = [] ∧
    (newAct env0 opC2 RunState.init).2.cleanups =
      [⟨"Delete new Pod/Service", newCleanupArgs "sess1"⟩] :=
  ⟨rfl,
   by
    have h := (C2_cleanup_iff_create envCreateFail opC2 ⟨"web", "pod", none⟩ RunState.init rfl).1
      rfl
    simpa [RunState.init] using h.2,
   by
    have h := (C2_cleanup_iff_create env0 opC2 ⟨"web", "pod", none⟩ RunState.init rfl).2.1
      rfl
    simpa [RunState.init] using h.1⟩

/-- C4: for every ProxyIntent, `New.prepare` produces at least one manifest,
the first being the Pod manifest; a Service manifest is produced iff at least
one requested port is remotely reachable, and when produced its port mapping
maps each remotely reachable port identically to itself, with selector and
labels keyed by the session id. -/
theorem C4_prepare_manifests (env : ClusterEnv) (intent : ProxyIntent) :
    1 ≤ (Operation.prepare env ⟨.New, intent, [], none⟩).manifests.length ∧
    (Operation.prepare env ⟨.New, intent, [], none⟩).manifests.head? =
      some (make_new_proxy_pod_manifest intent.name env.session_id
        (get_image_name intent.expose) intent.service_account
        (match intent.custom_nameserver with
         | some ns1 => [("TELEPRESENCE_NAMESERVER", ns1)]
         | none => [])) ∧
    (2 ≤ (Operation.prepare env ⟨.New, intent, [], none⟩).manifests.length ↔
      intent.expose.remote ≠ []) ∧
    (intent.expose.remote = [] →
      (Operation.prepare env ⟨.New, intent, [], none⟩).manifests =
        [make_new_proxy_pod_manifest intent.name env.session_id
          (get_image_name intent.expose) intent.service_account
          (match intent.custom_nameserver with
           | some ns1 => [("TELEPRESENCE_NAMESERVER", ns1)]
           | none => [])]) ∧
    (intent.expose.remote ≠ [] →
      ∀ svc, (Operation.prepare env ⟨.New, intent, [], none⟩).manifests[1]? = some svc →
        svc = make_svc_manifest intent.name
          [("telepresence", env.session_id)] [("telepresence", env.session_id)]
          (intent.expose.remote.map (fun p => (p, p))) ∧
        (svc.field "spec").bind (fun sp => sp.field "ports") =
          some (.obj (portFields (intent.expose.remote.map (fun p => (p, p))))) ∧
        (svc.field "spec").bind (fun sp => sp.field "selector") =
          some (.obj (envFields [("telepresence", env.session_id)])) ∧
        (svc.field "metadata").bind (fun m => m.field "labels") =
          some (.obj (envFields [("telepresence", env.session_id)]))) := by
  cases hr : intent.expose.remote with
  | nil =>
    refine ⟨?_, ?_, ?_, ?_, ?_⟩ <;>
      simp [Operation.prepare, hr]
  | cons p ps =>
    refine ⟨?_, ?_, ?_, ?_, ?_⟩
    · simp [Operation.prepare, hr]
    · simp [Operation.prepare, hr]
    · simp [Operation.prepare, hr]
    · intro h
      simp [hr] at h
    · intro _ svc hsvc
      simp only [Operation.prepare, hr] at hsvc
      simp at hsvc
      subst hsvc
      refine ⟨by simp, ?_, ?_, ?_⟩ <;>
        simp [make_svc_manifest, Doc.field, DocFields.lookup, hr]

def intentC4 : ProxyIntent := ⟨"web", "", ⟨[3000], [8080, 9090]⟩, none, ""⟩

theorem C4_witness :
    intentC4.expose.remote ≠ [] ∧
    (Operation.prepare env0 ⟨.New, intentC4, [], none⟩).manifests[1]? =
      some (make_svc_manifest "web" [("telepresence", "sess1")] [("telepresence", "sess1")]
        [(8080, 8080), (9090, 9090)]) ∧
    ((make_svc_manifest "web" [("telepresence", "sess1")] [("telepresence", "sess1")]
        [(8080, 8080), (9090, 9090)]).field "spec").bind (fun sp => sp.field "ports") =
      some (.obj (portFields [(8080, 8080), (9090, 9090)])) := by
  refine ⟨by decide, rfl, ?_⟩
  have h := ((C4_prepare_manifests env0 intentC4).2.2.2.2 (by decide)
    (make_svc_manifest "web" [("telepresence", "sess1")] [("telepresence", "sess1")]
      [(8080, 8080), (9090, 9090)]) rfl).2.1
  simpa [intentC4, PortMapping.remote] using h

/-- The custom nameserver `setup` ends up storing in the intent on its
success paths: the fallback-nameserver lookup result when the capture method
is vpn-tcp on a local-VM cluster, `None` otherwise. -/
def chosenNameserver (env : ClusterEnv) (kube : KubeCtl) (args : Args) : Option String :=
  if args.method = "vpn-tcp" && kube.in_local_vm then env.alternate_nameserver else none

/-- The ProxyIntent `setup` constructs: name and container split from the
combined `name:container` identifier, the requested ports, the chosen
nameserver and the service account. -/
def expectedIntent (env : ClusterEnv) (kube : KubeCtl) (args : Args) : ProxyIntent :=
  ⟨(splitColon args.deployment_arg).1, (splitColon args.deployment_arg).2,
   args.expose, chosenNameserver env kube args, args.service_account⟩

/-- C1: for every valid request with exactly one mode flag set, `setup`
selects exactly one OperationKind matching the decision table — existing with
a true DeploymentConfig probe gives ExistingDC, existing with a false probe
gives ExistingDeploy, new gives New, swap with a true probe gives SwapDC, swap
with a false probe gives SwapDeploy — and the constructed ProxyIntent resolves
a combined `name:container` identifier into its name and container parts. -/
theorem C1_decision_table (env : ClusterEnv) (kube : KubeCtl) (args : Args) (s : RunState)
    (hpriv : (args.expose.has_privileged_ports && kube.cluster_is_openshift) = false)
    (hsa : args.service_account = "" ∨ env.serviceAccountOk = true)
    (hvpn : ((args.method = "vpn-tcp" && kube.in_local_vm : Bool) = true) →
      args.operation ≠ "deployment" ∧ env.alternate_nameserver.isSome = true) :
    (args.deployment.isSome = true → args.new_deployment = none → args.swap_deployment = none →
      (setup env kube args s).1 =
        .ok (Operation.prepare env
          ⟨if dcProbe env kube then .ExistingDC else .ExistingDeploy,
           expectedIntent env kube args, [], none⟩)) ∧
    (args.deployment = none → args.new_deployment.isSome = true → args.swap_deployment = none →
      (setup env kube args s).1 =
        .ok (Operation.prepare env ⟨.New, expectedIntent env kube args, [], none⟩)) ∧
    (args.deployment = none → args.new_deployment = none → args.swap_deployment.isSome = true →
      (setup env kube args s).1 =
        .ok (Operation.prepare env
          ⟨if dcProbe env kube then .SwapDC else .SwapDeploy,
           expectedIntent env kube args, [], none⟩)) := by
  have hred : ∀ goalKind : Option OperationKind, True := fun _ => trivial
  refine ⟨?_, ?_, ?_⟩ <;>
    · intro h1 h2 h3
      by_cases hsa0 : args.service_account = ""
      · cases hv : (args.method = "vpn-tcp" && kube.in_local_vm : Bool) with
        | false =>
          simp [setup, hpriv, hsa0, h1, h2, h3, hv, dc_exists_fst,
            expectedIntent, chosenNameserver]
        | true =>
          obtain ⟨hop, hns⟩ := hvpn hv
          obtain ⟨n1, hn1⟩ := Option.isSome_iff_exists.mp hns
          simp [setup, hpriv, hsa0, h1, h2, h3, hv, hop, hn1, dc_exists_fst,
            expectedIntent, chosenNameserver]
      · have hsaok : env.serviceAccountOk = true := by
          rcases hsa with h | h
          · exact absurd h hsa0
          · exact h
        cases hv : (args.method = "vpn-tcp" && kube.in_local_vm : Bool) with
        | false =>
          simp [setup, hpriv, hsa0, hsaok, h1, h2, h3, hv, dc_exists_fst,
            expectedIntent, chosenNameserver]
        | true =>
          obtain ⟨hop, hns⟩ := hvpn hv
          obtain ⟨n1, hn1⟩ := Option.isSome_iff_exists.mp hns
          simp [setup, hpriv, hsa0, hsaok, h1, h2, h3, hv, hop, hn1, dc_exists_fst,
            expectedIntent, chosenNameserver]

def argsC1 : Args := ⟨some "app:sidecar", none, none, "app:sidecar", ⟨[], [8080]⟩, "",
  "inject-tcp", "deployment"⟩

theorem C1_witness :
    dcProbe env0 kubeOpenshift = true ∧
    (setup env0 kubeOpenshift argsC1 RunState.init).1 =
      .ok (Operation.prepare env0
        ⟨.ExistingDC, ⟨"app", "sidecar", ⟨[], [8080]⟩, none, ""⟩, [], none⟩) := by
  refine ⟨by decide, ?_⟩
  have h := (C1_decision_table env0 kubeOpenshift argsC1 RunState.init (by decide)
    (Or.inl rfl) (by intro h; exact absurd h (by decide))).1 rfl rfl rfl
  simpa [expectedIntent, chosenNameserver, argsC1, splitColon, splitColonChars,
    dcProbe, env0, kubeOpenshift] using h

/-- C10: if none of the three mode attributes is set, `setup` passes the
validation steps, reaches the operation-construction step with the
selected-operation variable never assigned — the sequential if-statements
initialize no default — and crashes with the unbound-local error rather than
raising any of the specified error classes. -/
theorem C10_unbound_operation (env : ClusterEnv) (kube : KubeCtl) (args : Args) (s : RunState)
    (hd : args.deployment = none) (hn : args.new_deployment = none)
    (hs : args.swap_deployment = none)
    (hpriv : (args.expose.has_privileged_ports && kube.cluster_is_openshift) = false)
    (hsa : args.service_account = "" ∨ env.serviceAccountOk = true)
    (hvpn : ((args.method = "vpn-tcp" && kube.in_local_vm : Bool) = true) →
      args.operation ≠ "deployment" ∧ env.alternate_nameserver.isSome = true) :
    (setup env kube args s).1 = .error (.unboundLocal "operationType") := by
  by_cases hsa0 : args.service_account = ""
  · cases hv : (args.method = "vpn-tcp" && kube.in_local_vm : Bool) with
    | false => simp [setup, hpriv, hsa0, hd, hn, hs, hv]
    | true =>
      obtain ⟨hop, hns⟩ := hvpn hv
      obtain ⟨n1, hn1⟩ := Option.isSome_iff_exists.mp hns
      simp [setup, hpriv, hsa0, hd, hn, hs, hv, hop, hn1]
  · have hsaok : env.serviceAccountOk = true := by
      rcases hsa with h | h
      · exact absurd h hsa0
      · exact h
    cases hv : (args.method = "vpn-tcp" && kube.in_local_vm : Bool) with
    | false => simp [setup, hpriv, hsa0, hsaok, hd, hn, hs, hv]
    | true =>
      obtain ⟨hop, hns⟩ := hvpn hv
      obtain ⟨n1, hn1⟩ := Option.isSome_iff_exists.mp hns
      simp [setup, hpriv, hsa0, hsaok, hd, hn, hs, hv, hop, hn1]

def argsC10 : Args := ⟨none, none, none, "web", ⟨[], [8080]⟩, "", "inject-tcp", ""⟩

theorem C10_witness :
    (setup env0 kubePlain argsC10 RunState.init).1 = .error (.unboundLocal "operationType") :=
  C10_unbound_operation env0 kubePlain argsC10 RunState.init rfl rfl rfl (by decide)
    (Or.inl rfl) (by intro h; exact absurd h (by decide))

theorem make_remote_info_from_pod_built (name session_id image service_account : String)
    (envm : List (String × String)) :
    make_remote_info_from_pod
      (make_new_proxy_pod_manifest name session_id image service_account envm) =
      ⟨name, "pod", none⟩ := rfl

def argsC6 : Args := ⟨none, some "new", none, "web", ⟨[], [8080]⟩, "", "inject-tcp",
  "new-deployment"⟩

/-- C6 counterexample: at this valid create-new request, `setup` itself issues
no cluster call and registers no cleanup — so the selected operation's `act`
has not been called inside `setup`, which instead returns the prepared
operation whose `act` is the callable handed back; only invoking that callable
afterwards performs the mutation and produces the RemoteInfo.  Hence `setup`
does not satisfy `setup(intent_request) -> RemoteInfo` by itself. -/
theorem C6_counterexample :
    (setup env0 kubePlain argsC6 RunState.init).2.calls = [] ∧
    (setup env0 kubePlain argsC6 RunState.init).2.cleanups = [] ∧
    (∃ op, (setup env0 kubePlain argsC6 RunState.init).1 = .ok op ∧ op.kind = .New) ∧
    (setupAndAct env0 kubePlain argsC6 RunState.init).1 = .ok ⟨"web", "pod", none⟩ ∧
    (setupAndAct env0 kubePlain argsC6 RunState.init).2.calls ≠ [] := by
  exact ⟨rfl, rfl, ⟨_, rfl, rfl⟩, rfl, by decide⟩

/-- C6 amended: `setup` validates, selects the operation, calls its `prepare`,
and returns the operation's `act` as a callable; the RemoteInfo results from
the caller invoking that callable — composing `setup` with the invocation of
the returned `act` yields the resulting RemoteInfo for every valid request,
in each of the three request shapes: create-new, target-existing, and
swap-existing (the latter two through the probe-selected legacy variant). -/
theorem C6_setup_then_act (env : ClusterEnv) (kube : KubeCtl) (args : Args) (s : RunState)
    (hpriv : (args.expose.has_privileged_ports && kube.cluster_is_openshift) = false)
    (hsa : args.service_account = "" ∨ env.serviceAccountOk = true)
    (hvpn : ((args.method = "vpn-tcp" && kube.in_local_vm : Bool) = true) →
      args.operation ≠ "deployment" ∧ env.alternate_nameserver.isSome = true) :
    (args.new_deployment.isSome = true → args.swap_deployment = none →
      env.createOk = true → env.podReady = true →
      (setupAndAct env kube args s).1 =
        .ok ⟨(splitColon args.deployment_arg).1, "pod", none⟩) ∧
    (args.deployment.isSome = true → args.new_deployment = none → args.swap_deployment = none →
      ∀ p, env.correlatedPod = some p →
        (setupAndAct env kube args s).1 =
          .ok ⟨p, if dcProbe env kube then "deploymentconfig" else "deployment",
            env.legacyRunId⟩) ∧
    (args.swap_deployment.isSome = true →
      ∀ p, env.correlatedPod = some p →
        (setupAndAct env kube args s).1 =
          .ok ⟨p, if dcProbe env kube then "deploymentconfig" else "deployment",
            env.legacyRunId⟩) := by
  refine ⟨?_, ?_, ?_⟩
  · intro h1 h2 hcreate hready
    by_cases hsa0 : args.service_account = ""
    · cases hv : (args.method = "vpn-tcp" && kube.in_local_vm : Bool) with
      | false =>
        simp [setupAndAct, setup, Operation.prepare, Operation.act, newAct,
          make_remote_info_from_pod_built, hpriv, hsa0, h1, h2, hv, hcreate, hready,
          RunState.addCall, RunState.addMsg, RunState.addCleanup]
      | true =>
        obtain ⟨hop, hns⟩ := hvpn hv
        obtain ⟨n1, hn1⟩ := Option.isSome_iff_exists.mp hns
        simp [setupAndAct, setup, Operation.prepare, Operation.act, newAct,
          make_remote_info_from_pod_built, hpriv, hsa0, h1, h2, hv, hop, hn1, hcreate,
          hready, RunState.addCall, RunState.addMsg, RunState.addCleanup]
    · have hsaok : env.serviceAccountOk = true := by
        rcases hsa with h | h
        · exact absurd h hsa0
        · exact h
      cases hv : (args.method = "vpn-tcp" && kube.in_local_vm : Bool) with
      | false =>
        simp [setupAndAct, setup, Operation.prepare, Operation.act, newAct,
          make_remote_info_from_pod_built, hpriv, hsa0, hsaok, h1, h2, hv, hcreate, hready,
          RunState.addCall, RunState.addMsg, RunState.addCleanup]
      | true =>
        obtain ⟨hop, hns⟩ := hvpn hv
        obtain ⟨n1, hn1⟩ := Option.isSome_iff_exists.mp hns
        simp [setupAndAct, setup, Operation.prepare, Operation.act, newAct,
          make_remote_info_from_pod_built, hpriv, hsa0, hsaok, h1, h2, hv, hop, hn1,
          hcreate, hready, RunState.addCall, RunState.addMsg, RunState.addCleanup]
  · intro h1 h2 h3 p hp
    cases hdc : dcProbe env kube <;>
    · by_cases hsa0 : args.service_account = ""
      · cases hv : (args.method = "vpn-tcp" && kube.in_local_vm : Bool) with
        | false =>
          simp [setupAndAct, setup, Operation.prepare, Operation.act, legacyAct,
            hpriv, hsa0, h1, h2, h3, hv, hp, hdc, dc_exists_fst]
        | true =>
          obtain ⟨hop, hns⟩ := hvpn hv
          obtain ⟨n1, hn1⟩ := Option.isSome_iff_exists.mp hns
          simp [setupAndAct, setup, Operation.prepare, Operation.act, legacyAct,
            hpriv, hsa0, h1, h2, h3, hv, hop, hn1, hp, hdc, dc_exists_fst]
      · have hsaok : env.serviceAccountOk = true := by
          rcases hsa with h | h
          · exact absurd h hsa0
          · exact h
        cases hv : (args.method = "vpn-tcp" && kube.in_local_vm : Bool) with
        | false =>
          simp [setupAndAct, setup, Operation.prepare, Operation.act, legacyAct,
            hpriv, hsa0, hsaok, h1, h2, h3, hv, hp, hdc, dc_exists_fst]
        | true =>
          obtain ⟨hop, hns⟩ := hvpn hv
          obtain ⟨n1, hn1⟩ := Option.isSome_iff_exists.mp hns
          simp [setupAndAct, setup, Operation.prepare, Operation.act, legacyAct,
            hpriv, hsa0, hsaok, h1, h2, h3, hv, hop, hn1, hp, hdc, dc_exists_fst]
  · intro hsw p hp
    cases hdc : dcProbe env kube <;>
    · by_cases hsa0 : args.service_account = ""
      · cases hv : (args.method = "vpn-tcp" && kube.in_local_vm : Bool) with
        | false =>
          simp [setupAndAct, setup, Operation.prepare, Operation.act, legacyAct,
            hpriv, hsa0, hsw, hv, hp, hdc, dc_exists_fst]
        | true =>
          obtain ⟨hop, hns⟩ := hvpn hv
          obtain ⟨n1, hn1⟩ := Option.isSome_iff_exists.mp hns
          simp [setupAndAct, setup, Operation.prepare, Operation.act, legacyAct,
            hpriv, hsa0, hsw, hv, hop, hn1, hp, hdc, dc_exists_fst]
      · have hsaok : env.serviceAccountOk = true := by
          rcases hsa with h | h
          · exact absurd h hsa0
          · exact h
        cases hv : (args.method = "vpn-tcp" && kube.in_local_vm : Bool) with
        | false =>
          simp [setupAndAct, setup, Operation.prepare, Operation.act, legacyAct,
            hpriv, hsa0, hsaok, hsw, hv, hp, hdc, dc_exists_fst]
        | true =>
          obtain ⟨hop, hns⟩ := hvpn hv
          obtain ⟨n1, hn1⟩ := Option.isSome_iff_exists.mp hns
          simp [setupAndAct, setup, Operation.prepare, Operation.act, legacyAct,
            hpriv, hsa0, hsaok, hsw, hv, hop, hn1, hp, hdc, dc_exists_fst]

def argsC6swap : Args := ⟨none, none, some "swap", "web:side", ⟨[], [8080]⟩, "",
  "inject-tcp", "swap-deployment"⟩

theorem C6_amended_witness :
    (setupAndAct env0 kubePlain argsC6 RunState.init).1 = .ok ⟨"web", "pod", none⟩ ∧
    (setupAndAct env0 kubePlain argsC6swap RunState.init).1 =
      .ok ⟨"web-pod", "deployment", some "r1"⟩ := by
  constructor
  · exact (C6_setup_then_act env0 kubePlain argsC6 RunState.init (by decide) (Or.inl rfl)
      (by intro h; exact absurd h (by decide))).1 rfl rfl rfl rfl
  · exact (C6_setup_then_act env0 kubePlain argsC6swap RunState.init (by decide) (Or.inl rfl)
      (by intro h; exact absurd h (by decide))).2.2 rfl "web-pod" rfl

theorem isDigitChar_cleanChar {c : Char} (h : isDigitChar c = true) : cleanChar c = true := by
  unfold cleanChar
  have h1 : c ≠ quoteChar := by intro e; subst e; exact absurd h (by decide)
  have h2 : c ≠ backslashChar := by intro e; subst e; exact absurd h (by decide)
  simp [h1, h2]

theorem natStr_clean (n : Nat) : strClean (natStr n) = true := by
  show (natChars n).all cleanChar = true
  rw [List.all_eq_true]
  intro c hc
  exact isDigitChar_cleanChar (natChars_digits n c hc)

theorem portFields_clean (l : List (Nat × Nat)) : DocFields.clean (portFields l) = true := by
  induction l with
  | nil => rfl
  | cons a rest ih =>
    obtain ⟨x, y⟩ := a
    simp [portFields, DocFields.clean, Doc.clean, natStr_clean, ih]

theorem envFields_clean (l : List (String × String))
    (h : ∀ kv ∈ l, strClean kv.1 = true ∧ strClean kv.2 = true) :
    DocFields.clean (envFields l) = true := by
  induction l with
  | nil => rfl
  | cons a rest ih =>
    obtain ⟨x, y⟩ := a
    have ha := h (x, y) (List.mem_cons_self _ _)
    simp [envFields, DocFields.clean, Doc.clean, ha.1, ha.2,
      ih (fun kv hkv => h kv (List.mem_cons_of_mem _ hkv))]

theorem get_image_name_clean (e : PortMapping) : strClean (get_image_name e) = true := by
  unfold get_image_name
  split <;> decide

theorem ofList_clean (ms : List Doc) (h : ∀ d ∈ ms, Doc.clean d = true) :
    DocList.clean (DocList.ofList ms) = true := by
  induction ms with
  | nil => rfl
  | cons d rest ih =>
    simp [DocList.ofList, DocList.clean, h d (List.mem_cons_self _ _),
      ih (fun x hx => h x (List.mem_cons_of_mem _ hx))]

theorem pod_manifest_clean (name session_id image service_account : String)
    (envm : List (String × String)) (hname : strClean name = true)
    (hsess : strClean session_id = true) (himg : strClean image = true)
    (hsa : strClean service_account = true)
    (henv : ∀ kv ∈ envm, strClean kv.1 = true ∧ strClean kv.2 = true) :
    Doc.clean (make_new_proxy_pod_manifest name session_id image service_account envm) =
      true := by
  simp only [make_new_proxy_pod_manifest, Doc.clean, DocFields.clean,
    envFields_clean envm henv, Bool.and_eq_true]
  repeat' apply And.intro
  all_goals first | exact hname | exact hsess | exact himg | exact hsa | decide

theorem svc_manifest_clean (name session_id : String) (ports : List (Nat × Nat))
    (hname : strClean name = true) (hsess : strClean session_id = true) :
    Doc.clean (make_svc_manifest name [("telepresence", session_id)]
      [("telepresence", session_id)] ports) = true := by
  have hsel : DocFields.clean (envFields [("telepresence", session_id)]) = true :=
    envFields_clean _ (by
      intro kv hkv
      simp at hkv
      subst hkv
      exact ⟨(by decide : strClean "telepresence" = true), hsess⟩)
  simp only [make_svc_manifest, Doc.clean, DocFields.clean, envFields,
    portFields_clean, Bool.and_eq_true]
  repeat' apply And.intro
  all_goals first | exact hname | exact hsess | decide

/-- Is this recorded call a `create` call? -/
def isCreateCall : ClusterCall → Bool
  | .check_call ("create" :: _) _ => true
  | _ => false

theorem prepared_manifests_clean (env : ClusterEnv) (intent : ProxyIntent)
    (hname : strClean intent.name = true) (hsess : strClean env.session_id = true)
    (hsa : strClean intent.service_account = true)
    (hns : ∀ n1, intent.custom_nameserver = some n1 → strClean n1 = true) :
    ∀ d ∈ (Operation.prepare env ⟨.New, intent, [], none⟩).manifests,
      Doc.clean d = true := by
  intro d hd
  have hpod : Doc.clean (make_new_proxy_pod_manifest intent.name env.session_id
      (get_image_name intent.expose) intent.service_account
      (match intent.custom_nameserver with
       | some ns1 => [("TELEPRESENCE_NAMESERVER", ns1)]
       | none => [])) = true := by
    apply pod_manifest_clean _ _ _ _ _ hname hsess (get_image_name_clean _) hsa
    cases hcn : intent.custom_nameserver with
    | none => simp
    | some n1 =>
      intro kv hkv
      simp at hkv
      subst hkv
      exact ⟨(by decide : strClean "TELEPRESENCE_NAMESERVER" = true), hns n1 hcn⟩
  by_cases hr : intent.expose.remote = []
  · simp [Operation.prepare, hr] at hd
    subst hd
    exact hpod
  · simp [Operation.prepare, hr] at hd
    rcases hd with hd | hd
    · subst hd
      exact hpod
    · subst hd
      exact svc_manifest_clean _ _ _ hname hsess

/-- C5: `New.act` submits all prepared manifests in a single create call:
serializing the ManifestList built from `prepare`'s manifests and
deserializing it is the identity, the resulting document has kind "List", and
its items are, in order, exactly the manifests built in `prepare`. -/
theorem C5_single_create_roundtrip (env : ClusterEnv) (intent : ProxyIntent) (s : RunState)
    (hname : strClean intent.name = true) (hsess : strClean env.session_id = true)
    (hsa : strClean intent.service_account = true)
    (hns : ∀ n1, intent.custom_nameserver = some n1 → strClean n1 = true) :
    Doc.parse (make_k8s_list (Operation.prepare env ⟨.New, intent, [], none⟩).manifests).render =
      some (make_k8s_list (Operation.prepare env ⟨.New, intent, [], none⟩).manifests) ∧
    (make_k8s_list (Operation.prepare env ⟨.New, intent, [], none⟩).manifests).field "kind" =
      some (.str "List") ∧
    (make_k8s_list (Operation.prepare env ⟨.New, intent, [], none⟩).manifests).field "items" =
      some (.arr (DocList.ofList (Operation.prepare env ⟨.New, intent, [], none⟩).manifests)) ∧
    (DocList.ofList (Operation.prepare env ⟨.New, intent, [], none⟩).manifests).toList =
      (Operation.prepare env ⟨.New, intent, [], none⟩).manifests ∧
    (newAct env (Operation.prepare env ⟨.New, intent, [], none⟩) s).2.calls.filter isCreateCall =
      s.calls.filter isCreateCall ++
        [.check_call ["create", "-f", "-"]
          (some (make_k8s_list
            (Operation.prepare env ⟨.New, intent, [], none⟩).manifests).render)] := by
  refine ⟨?_, rfl, rfl, DocList.toList_ofList _, ?_⟩
  · apply Doc.parse_render
    have hclean := prepared_manifests_clean env intent hname hsess hsa hns
    simp only [make_k8s_list, Doc.clean, DocFields.clean, ofList_clean _ hclean,
      Bool.and_eq_true]
    repeat' apply And.intro
    all_goals decide
  · have hrem : (Operation.prepare env ⟨.New, intent, [], none⟩).remote_info =
        some (make_remote_info_from_pod (make_new_proxy_pod_manifest intent.name
          env.session_id (get_image_name intent.expose) intent.service_account
          (match intent.custom_nameserver with
           | some ns1 => [("TELEPRESENCE_NAMESERVER", ns1)]
           | none => []))) := by
      simp [Operation.prepare]
    unfold newAct
    rw [hrem]
    cases hc : env.createOk with
    | false =>
      simp [hc, RunState.addCall, RunState.addMsg, List.filter_append, isCreateCall]
    | true =>
      cases hp : env.podReady <;>
        simp [hc, hp, RunState.addCall, RunState.addMsg, RunState.addCleanup,
          List.filter_append, isCreateCall]

def intentC5 : ProxyIntent := ⟨"web", "", ⟨[], [8080]⟩, none, ""⟩

theorem C5_witness :
    (strClean intentC5.name = true ∧ strClean env0.session_id = true ∧
      strClean intentC5.service_account = true) ∧
    Doc.parse (make_k8s_list
        (Operation.prepare env0 ⟨.New, intentC5, [], none⟩).manifests).render =
      some (make_k8s_list (Operation.prepare env0 ⟨.New, intentC5, [], none⟩).manifests) :=
  ⟨⟨by decide, by decide, by decide⟩,
   (C5_single_create_roundtrip env0 intentC5 RunState.init (by decide) (by decide)
     (by decide) (fun n1 h => nomatch h)).1⟩

theorem set_concat {α : Type} (l : List α) (a b : α) : (l ++ [a]).set l.length b = l ++ [b] := by
  induction l with
  | nil => rfl
  | cons x xs ih => simp [List.set, ih]

/-- How `Span.end` transforms the state, for any span present in the store:
the end timestamp is written unconditionally; if the span never began the
assertion error is raised (after the write); otherwise the elapsed time is
returned and the active pointer is restored to the parent exactly when the
span was the active one. -/
theorem endSpan_spec (st : TraceState) (i : Nat) (sp : SpanData)
    (hsp : st.spans[i]? = some sp) :
    (endSpan st i).2.spans[i]? = some { sp with end_time := some st.clock } ∧
    (sp.start_time = none →
      (endSpan st i).1 = .error (.invalidState "assert self.start_time is not None") ∧
      (endSpan st i).2.current_span = st.current_span) ∧
    (∀ t0, sp.start_time = some t0 →
      (endSpan st i).1 = .ok (st.clock - t0) ∧
      (endSpan st i).2.current_span =
        (if st.current_span = some i then sp.parent else st.current_span)) := by
  have hlen : i < st.spans.length := by
    by_contra hge
    rw [List.getElem?_eq_none (by omega)] at hsp
    exact (Option.noConfusion hsp)
  have hset : ∀ v : SpanData, (st.spans.set i v)[i]? = some v := by
    intro v
    rw [List.getElem?_set]
    simp [hlen]
  obtain ⟨tg, pr, ch, dp, stt, ent, vb⟩ := sp
  cases stt with
  | none =>
    refine ⟨?_, ?_, ?_⟩
    · simp only [endSpan, hsp]
      exact hset _
    · intro _
      refine ⟨?_, ?_⟩ <;> simp only [endSpan, hsp]
    · intro t0 ht0
      exact (Option.noConfusion ht0)
  | some t0 =>
    refine ⟨?_, ?_, ?_⟩
    · simp only [endSpan, hsp]
      split <;> split <;> (try split) <;> exact hset _
    · intro h
      exact (Option.noConfusion h)
    · intro t1 ht1
      injection ht1 with ht1
      subst ht1
      constructor
      · simp only [endSpan, hsp]
        split <;> split <;> (try split) <;> rfl
      · simp only [endSpan, hsp]
        by_cases hc : st.current_span = some i
        · rw [if_pos hc]
          split <;> (try split) <;> simp [hc]
        · rw [if_neg hc]
          split <;> (try split) <;> simp [hc]

theorem chainSpan_lt {n i : Nat} (h : i < n) : chainSpan (n + 1) i = chainSpan n i := by
  unfold chainSpan
  have h1 : i ≠ n := by omega
  have h2 : i ≠ n + 1 := by omega
  simp [h1, h2]

theorem chainState_spec (n : Nat) :
    (chainState n).spans = (List.range (n + 1)).map (chainSpan n) ∧
    (chainState n).current_span = some n ∧
    (chainState n).clock = 1 ∧
    (chainState n).output = [] ∧
    (chainState n).emit_summary = true := by
  induction n with
  | zero => exact ⟨rfl, rfl, rfl, rfl, rfl⟩
  | succ n ih =>
    obtain ⟨hspans, hcur, hclock, hout, hems⟩ := ih
    have hlen : (chainState n).spans.length = n + 1 := by simp [hspans]
    have hget : (chainState n).spans[n]? = some (chainSpan n n) := by
      rw [hspans]
      simp [List.getElem?_map, List.getElem?_range (show n < n + 1 by omega)]
    have hbeg : ∀ (l : List SpanData) (a : SpanData), l.length = n + 1 →
        (l ++ [a])[n + 1]? = some a := by
      intro l a hl
      rw [← hl]
      exact List.getElem?_concat_length l a
    have hsetc : ∀ (l : List SpanData) (a b : SpanData), l.length = n + 1 →
        (l ++ [a]).set (n + 1) b = l ++ [b] := by
      intro l a b hl
      rw [← hl]
      exact set_concat l a b
    have hstep : chainState (n + 1) = beginNestedSpan (chainState n) "span" false := rfl
    rw [hstep]
    unfold beginNestedSpan newSpan beginSpan
    simp only [hcur, hget, hlen, hclock, hout, hems]
    rw [hbeg _ _ (by simp [hlen])]
    simp only []
    rw [hsetc _ _ _ (by simp [hlen])]
    refine ⟨?_, ?_, ?_, ?_, ?_⟩
    · show (chainState n).spans.set n _ ++ [_] = _
      apply List.ext_getElem?
      intro j
      have hrhs : ((List.range (n + 1 + 1)).map (chainSpan (n + 1)))[j]? =
          if j < n + 2 then some (chainSpan (n + 1) j) else none := by
        by_cases hj : j < n + 2
        · simp [List.getElem?_map, List.getElem?_range (show j < n + 1 + 1 by omega), hj]
        · rw [if_neg hj]
          exact List.getElem?_eq_none (by simp; omega)
      rw [hrhs]
      by_cases hj2 : j < n + 1
      · rw [List.getElem?_append]
        rw [if_pos (show j < ((chainState n).spans.set n _).length from by simp [hlen]; omega)]
        rw [if_pos (by omega)]
        by_cases hjn : j = n
        · rw [hjn]
          rw [List.getElem?_set_self (show n < (chainState n).spans.length from by
            rw [hlen]; omega)]
          unfold chainSpan
          have h1 : ¬(n = n + 1) := by omega
          simp [h1]
        · rw [List.getElem?_set_ne (show n ≠ j from fun h => hjn h.symm)]
          rw [hspans]
          simp only [List.getElem?_map, List.getElem?_range (show j < n + 1 by omega)]
          rw [chainSpan_lt (show j < n from by omega)]
          rfl
      · by_cases hj3 : j = n + 1
        · subst hj3
          rw [hbeg _ _ (by simp [hlen])]
          rw [if_pos (by omega)]
          unfold chainSpan
          have h1 : ¬(n + 1 = 0) := by omega
          simp [h1]
        · rw [if_neg (show ¬ j < n + 2 by omega)]
          rw [List.getElem?_append]
          rw [if_neg (show ¬ j < ((chainState n).spans.set n _).length from by simp [hlen]; omega)]
          exact List.getElem?_eq_none (by simp [hlen]; omega)
    · trivial
    · trivial
    · trivial
    · trivial

/-- The ended-chain store: the chain's spans with the root's end timestamp
written at clock 2. -/
def endedChain (n : Nat) : List SpanData :=
  ((List.range (n + 1)).map (chainSpan n)).set 0 { chainSpan n 0 with end_time := some 2 }

theorem endedChain_get {n j : Nat} (hj : j ≤ n) :
    (endedChain n)[j]? =
      some (if j = 0 then { chainSpan n 0 with end_time := some 2 } else chainSpan n j) := by
  unfold endedChain
  rw [List.getElem?_set]
  by_cases h0 : j = 0
  · subst h0
    simp [List.getElem?_map, List.getElem?_range (show 0 < n + 1 by omega)]
  · simp [show ¬(0 = j) from fun h => h0 h.symm, h0,
      List.getElem?_map, List.getElem?_range (show j < n + 1 by omega)]

theorem summarize_endedChain (n : Nat) :
    ∀ fuel j, j ≤ n → n + 1 - j ≤ fuel →
      summarizeLines (endedChain n) fuel j = (List.range' j (n + 1 - j)).map chainLine := by
  intro fuel
  induction fuel with
  | zero =>
    intro j hj hf
    omega
  | succ fuel ih =>
    intro j hj hf
    rw [summarizeLines, endedChain_get hj]
    by_cases h0 : j = 0
    · subst h0
      simp only [if_pos rfl]
      by_cases hn : (0 : Nat) = n
      · subst hn
        simp [chainSpan, chainLine, pyTruthy, List.range'_succ]
      · have hch : (chainSpan n 0).children = [1] := by
          unfold chainSpan
          simp [show ¬((0:Nat) = n) from hn]
        have hrec := ih 1 (by omega) (by omega)
        simp only [hch]
        simp only [List.map_cons, List.map_nil, List.flatten]
        rw [hrec]
        have hr : List.range' 0 (n + 1 - 0) = 0 :: List.range' 1 (n + 1 - 1) := by
          have : n + 1 - 0 = (n + 1 - 1) + 1 := by omega
          rw [this, List.range'_succ]
        rw [hr]
        simp [chainSpan, chainLine, pyTruthy]
    · simp only [if_neg h0]
      by_cases hn : j = n
      · have hch : (chainSpan n j).children = [] := by unfold chainSpan; simp [hn]
        have hnum : n + 1 - j = 1 := by omega
        simp only [hch]
        simp [chainSpan, chainLine, pyTruthy, hnum, List.range'_succ, h0]
      · have hch : (chainSpan n j).children = [j + 1] := by
          unfold chainSpan
          simp [hn]
        have hrec := ih (j + 1) (by omega) (by omega)
        simp only [hch]
        simp only [List.map_cons, List.map_nil, List.flatten]
        rw [hrec]
        have hr : List.range' j (n + 1 - j) = j :: List.range' (j + 1) (n + 1 - (j + 1)) := by
          have : n + 1 - j = (n + 1 - (j + 1)) + 1 := by omega
          rw [this, List.range'_succ]
        rw [hr]
        simp [chainSpan, chainLine, pyTruthy, h0]

theorem C8_summary_aux (n : Nat) :
    (endSpan (tick (chainState n) 1) 0).2.output =
      "SPAN SUMMARY:" :: (List.range (n + 1)).map chainLine := by
  by_cases hn0 : n = 0
  · subst hn0
    rfl
  obtain ⟨hspans, hcur, hclock, hout, hems⟩ := chainState_spec n
  have hget0 : (tick (chainState n) 1).spans[0]? = some (chainSpan n 0) := by
    show (chainState n).spans[0]? = _
    rw [hspans]
    simp [List.getElem?_map, List.getElem?_range (show 0 < n + 1 by omega)]
  have hcs0 : chainSpan n 0 =
      ⟨"span", none, if (0 : Nat) = n then [] else [1], 0, some 1, none, false⟩ := rfl
  have hclock2 : (tick (chainState n) 1).clock = 2 := by
    show (chainState n).clock + 1 = 2
    rw [hclock]
  have hcur2 : (tick (chainState n) 1).current_span = some n := hcur
  have hems2 : (tick (chainState n) 1).emit_summary = true := hems
  have hout2 : (tick (chainState n) 1).output = [] := hout
  have hspans2 : (tick (chainState n) 1).spans = (List.range (n + 1)).map (chainSpan n) :=
    hspans
  have hfold : ((List.range (n + 1)).map (chainSpan n)).set 0
      ⟨"span", none, if (0 : Nat) = n then [] else [1], 0, some 1, some 2, false⟩ =
      endedChain n := rfl
  have hlen2 : (endedChain n).length = n + 1 := by simp [endedChain]
  have hsum := summarize_endedChain n (n + 1) 0 (by omega) (by omega)
  have hr0 : List.range' 0 (n + 1 - 0) = List.range (n + 1) := by
    simp [List.range_eq_range']
  rw [hr0] at hsum
  have hget0m : ((List.range (n + 1)).map (chainSpan n))[0]? =
      some ⟨"span", none, if (0 : Nat) = n then [] else [1], 0, some 1, none, false⟩ := by
    rw [← hcs0]
    simp [List.getElem?_map, List.getElem?_range (show 0 < n + 1 by omega)]
  unfold endSpan
  simp only [hspans2, hget0m, hclock2, hcur2, hems2, hout2]
  split <;> simp_all [hfold, hlen2, hsum, apply_ite]

/-- C8: calling `end()` on a span records an end timestamp and returns the
elapsed duration; iff that span is the tracer's currently active span, the
active pointer is restored to the span's parent; and ending the root span,
with the summarize flag set, after `n` nested begins produces a summary with
exactly `n + 1` lines, each indented by two spaces per depth level. -/
theorem C8_span_end_and_summary :
    (∀ (st : TraceState) (i : Nat) (sp : SpanData) (t0 : Nat),
      st.spans[i]? = some sp → sp.start_time = some t0 →
      (endSpan st i).1 = .ok (st.clock - t0) ∧
      (endSpan st i).2.spans[i]? = some { sp with end_time := some st.clock } ∧
      (endSpan st i).2.current_span =
        (if st.current_span = some i then sp.parent else st.current_span)) ∧
    (∀ n : Nat,
      (endSpan (tick (chainState n) 1) 0).2.output =
        "SPAN SUMMARY:" :: (List.range (n + 1)).map chainLine ∧
      ((List.range (n + 1)).map chainLine).length = n + 1 ∧
      (∀ j, j < n + 1 → ((List.range (n + 1)).map chainLine)[j]? =
        some ((if j = 0 then fmtSpent 1 else spentPlaceholder) ++
          String.mk (List.replicate (2 * j) ' ') ++ " " ++ "span"))) := by
  constructor
  · intro st i sp t0 hsp hst
    have h := endSpan_spec st i sp hsp
    exact ⟨(h.2.2 t0 hst).1, h.1, (h.2.2 t0 hst).2⟩
  · intro n
    refine ⟨C8_summary_aux n, by simp, ?_⟩
    intro j hj
    simp only [List.getElem?_map, List.getElem?_range hj]
    rfl

def stC8 : TraceState := ⟨[⟨"root", none, [], 0, some 1, none, false⟩], some 0, [], 3, false⟩

theorem C8_witness :
    (endSpan stC8 0).1 = .ok 2 ∧
    (endSpan stC8 0).2.current_span = none ∧
    (endSpan (tick (chainState 2) 1) 0).2.output =
      "SPAN SUMMARY:" :: (List.range 3).map chainLine := by
  have h := C8_span_end_and_summary
  refine ⟨(h.1 stC8 0 ⟨"root", none, [], 0, some 1, none, false⟩ 1 rfl rfl).1, ?_, (h.2 2).1⟩
  have h2 := (h.1 stC8 0 ⟨"root", none, [], 0, some 1, none, false⟩ 1 rfl rfl).2.2
  simpa using h2

def stC9 : TraceState := ⟨[⟨"span", none, [], 0, some 1, none, false⟩], none, [], 2, false⟩

/-- C9 counterexample: on this concrete span, begun at clock 1, a first
`end()` at clock 2 succeeds; a second `end()` at clock 3 also completes
normally — returning a new elapsed time instead of raising the InvalidState
programming error — and overwrites `end_time` (first to 2, then to 3), so
`end_time` is not set at most once over the span's lifetime. -/
theorem C9_counterexample :
    (endSpan stC9 0).1 = .ok 1 ∧
    ((endSpan stC9 0).2.spans[0]?).map SpanData.end_time = some (some 2) ∧
    (endSpan (tick (endSpan stC9 0).2 1) 0).1 = .ok 2 ∧
    ((endSpan (tick (endSpan stC9 0).2 1) 0).2.spans[0]?).map SpanData.end_time =
      some (some 3) :=
  ⟨rfl, rfl, rfl, rfl⟩

/-- C9 amended: a span's `end_time` is written by every `end()` call, in
source order before the start-time assertion.  Calling `end()` on a span that
has not begun writes `end_time` and then raises the assertion (InvalidState)
error; calling `end()` on a span that has begun always completes normally,
returning the elapsed time and overwriting `end_time` — in particular a
second `end()` does not raise, and `end_time` is not set at most once. -/
theorem C9_end_time_always_written (st : TraceState) (i : Nat) (sp : SpanData)
    (hsp : st.spans[i]? = some sp) :
    (endSpan st i).2.spans[i]? = some { sp with end_time := some st.clock } ∧
    (sp.start_time = none →
      (endSpan st i).1 = .error (.invalidState "assert self.start_time is not None")) ∧
    (∀ t0, sp.start_time = some t0 → (endSpan st i).1 = .ok (st.clock - t0)) := by
  have h := endSpan_spec st i sp hsp
  exact ⟨h.1, fun hn => (h.2.1 hn).1, fun t0 ht => (h.2.2 t0 ht).1⟩

def stC9a : TraceState := ⟨[⟨"s", none, [], 0, none, none, false⟩], none, [], 5, false⟩

def stC9b : TraceState := ⟨[⟨"s", none, [], 0, some 1, some 2, false⟩], none, [], 7, false⟩

theorem C9_amended_witness :
    (endSpan stC9a 0).1 =
      .error (.invalidState "assert self.start_time is not None") ∧
    (endSpan stC9b 0).1 = .ok 6 ∧
    (endSpan stC9b 0).2.spans[0]? = some ⟨"s", none, [], 0, some 1, some 7, false⟩ := by
  refine ⟨?_, ?_, ?_⟩
  · exact (C9_end_time_always_written stC9a 0
      ⟨"s", none, [], 0, none, none, false⟩ rfl).2.1 rfl
  · exact (C9_end_time_always_written stC9b 0
      ⟨"s", none, [], 0, some 1, some 2, false⟩ rfl).2.2 1 rfl
  · exact (C9_end_time_always_written stC9b 0
      ⟨"s", none, [], 0, some 1, some 2, false⟩ rfl).1

end Telepresence
